import Mathlib

/-!
Shallow embedding of the Multi-Object PTZ Tracking Engine from
`core/multi_object_ptz_system.py`, together with proofs about it.

Modelling conventions:

* Python floats are modelled as rationals (`ℚ`); all arithmetic in the
  source is exact field arithmetic except `math.sqrt`, which is passed in
  as an explicit function argument `sq : ℚ → ℚ`.  Universal theorems are
  stated for an arbitrary `sq`; concrete evaluations instantiate `sq`
  with `ratSqrt`, which agrees with the real square root on every
  perfect-square rational (all radicands appearing in the concrete
  inputs below are perfect squares, and each concrete statement records
  the needed agreement facts).
* `time.time()` is modelled by an explicit `now : ℚ` argument on every
  operation that reads the clock.
* The Python `dict` of tracked objects (insertion ordered, integer keys
  assigned from the monotone `next_object_id` counter) is modelled as a
  `List TrackedObject` in insertion order.
* Camera I/O (`_send_ptz_command`, `_send_zoom_command`) has no effect on
  tracker state other than the recorded histories; the values handed to
  those dispatch routines are exactly the values recorded (pan/tilt in
  `ptz_movement_history`, zoom in the `new_zoom` field of `zoom_history`),
  so dispatch-level properties are stated over those records.
* The optional callback slots (`on_object_detected`, `on_object_lost`,
  `on_target_switched`, `on_tracking_update`, `on_zoom_changed`) are
  modelled as an event list returned by each operation; an event entry
  also records the wall time at which it fired and whether it was fired
  from inside `_switch_target` (as opposed to `_select_new_target`).
* Fields of the source classes that no property below depends on and
  that would need extra imported primitives are omitted:
  `movement_direction` and `acceleration` (`math.atan2`, never read),
  `object_class` strings are kept, `to_pixels`/`get_area` helpers and the
  camera / thread / logger handles are not modelled.
-/

attribute [local semireducible] Rat.add Rat.mul Rat.sub Rat.inv

/-- Bounded binary search for the integer square root: maintains
`lo * lo ≤ n < hi * hi` and stops when the bracket closes (64 halving
steps are enough for every input appearing below). -/
def natSqrtGo (n : ℕ) : ℕ → ℕ → ℕ → ℕ
  | 0, lo, _ => lo
  | fuel + 1, lo, hi =>
    if hi ≤ lo + 1 then lo
    else
      let mid := (lo + hi) / 2
      if mid * mid ≤ n then natSqrtGo n fuel mid hi else natSqrtGo n fuel lo mid

/-- Integer square root (exact on perfect squares). -/
def natSqrt (n : ℕ) : ℕ := natSqrtGo n 64 0 (n + 1)

/-- Square root on `ℚ` that is exact whenever numerator and denominator are
perfect squares; it stands in for `math.sqrt` in concrete evaluations.
(On other inputs it is some rational; no theorem relies on its value there,
and each concrete statement below records the agreement facts it needs,
of the form `r ^ 2 = radicand`.) -/
def ratSqrt (q : ℚ) : ℚ := (natSqrt q.num.toNat : ℚ) / (natSqrt q.den : ℚ)

/-- Embedding of the `ObjectPosition` dataclass: a detected box in
normalised coordinates with the pixel frame size it came from. -/
structure ObjectPosition where
  cx : ℚ
  cy : ℚ
  width : ℚ
  height : ℚ
  confidence : ℚ
  timestamp : ℚ
  frame_w : ℕ := 1920
  frame_h : ℕ := 1080
  object_class : String := "unknown"
deriving DecidableEq, Repr

namespace ObjectPosition

/-- `ObjectPosition.distance_to_center`:
`math.sqrt((cx - 0.5)**2 + (cy - 0.5)**2)`. -/
def distance_to_center (sq : ℚ → ℚ) (p : ObjectPosition) : ℚ :=
  sq ((p.cx - 1/2) ^ 2 + (p.cy - 1/2) ^ 2)

end ObjectPosition

/-- One entry of the detection batch handed to `update_detections`: the
fields read out of the Python detection dict (with its defaults already
applied). -/
structure Detection where
  cx : ℚ
  cy : ℚ
  width : ℚ
  height : ℚ
  confidence : ℚ
  frame_w : ℕ := 1920
  frame_h : ℕ := 1080
  object_class : String := "unknown"
deriving DecidableEq, Repr

/-- Embedding of the `MultiObjectConfig` dataclass. -/
structure MultiObjectConfig where
  alternating_enabled : Bool
  primary_follow_time : ℚ
  secondary_follow_time : ℚ
  min_switch_interval : ℚ
  max_switch_interval : ℚ
  confidence_weight : ℚ
  movement_weight : ℚ
  size_weight : ℚ
  proximity_weight : ℚ
  auto_zoom_enabled : Bool
  target_object_ratio : ℚ
  zoom_speed : ℚ
  min_zoom_level : ℚ
  max_zoom_level : ℚ
  zoom_padding : ℚ
  min_confidence_threshold : ℚ
  max_objects_to_track : ℕ
  object_lifetime : ℚ
  min_object_size : ℚ
  max_object_size : ℚ
  max_pan_speed : ℚ
  max_tilt_speed : ℚ
  movement_smoothing : ℚ
  tracking_smoothing : ℚ
  prediction_enabled : Bool
  prediction_time : ℚ
  adaptive_zoom : Bool
  priority_switching : Bool

/-- The dataclass defaults of `MultiObjectConfig`, which are also the
`maritime_standard` preset. -/
def maritime_standard : MultiObjectConfig where
  alternating_enabled := true
  primary_follow_time := 5
  secondary_follow_time := 3
  min_switch_interval := 1
  max_switch_interval := 30
  confidence_weight := 2/5
  movement_weight := 3/10
  size_weight := 1/5
  proximity_weight := 1/10
  auto_zoom_enabled := true
  target_object_ratio := 1/4
  zoom_speed := 3/10
  min_zoom_level := 0
  max_zoom_level := 1
  zoom_padding := 1/10
  min_confidence_threshold := 1/2
  max_objects_to_track := 3
  object_lifetime := 3
  min_object_size := 1/100
  max_object_size := 4/5
  max_pan_speed := 4/5
  max_tilt_speed := 4/5
  movement_smoothing := 1/2
  tracking_smoothing := 3/10
  prediction_enabled := true
  prediction_time := 1/10
  adaptive_zoom := true
  priority_switching := true

/-- Embedding of the `TrackedObject` dataclass. -/
structure TrackedObject where
  id : ℕ
  positions : List ObjectPosition
  last_seen : ℚ
  confidence_history : List ℚ
  priority_score : ℚ
  is_moving : Bool
  movement_speed : ℚ
  velocity_x : ℚ
  velocity_y : ℚ
  time_being_tracked : ℚ
  first_seen : ℚ
  frames_tracked : ℕ
  frames_lost : ℕ
  average_size : ℚ
  size_stability : ℚ
  shape_ratio : ℚ
  is_primary_target : Bool
  last_targeted_time : ℚ
  total_tracking_time : ℚ
deriving DecidableEq, Repr

namespace TrackedObject

/-- A freshly constructed `TrackedObject(id=...)`: the dataclass defaults,
with `first_seen` set to the construction time by `__post_init__`. -/
def new (id : ℕ) (now : ℚ) : TrackedObject where
  id := id
  positions := []
  last_seen := 0
  confidence_history := []
  priority_score := 0
  is_moving := false
  movement_speed := 0
  velocity_x := 0
  velocity_y := 0
  time_being_tracked := 0
  first_seen := now
  frames_tracked := 0
  frames_lost := 0
  average_size := 0
  size_stability := 0
  shape_ratio := 1
  is_primary_target := false
  last_targeted_time := 0
  total_tracking_time := 0

/-- `TrackedObject.get_current_position`: the most recent position, if any. -/
def get_current_position (self : TrackedObject) : Option ObjectPosition :=
  self.positions.getLast?

/-- `TrackedObject.get_average_confidence`. -/
def get_average_confidence (self : TrackedObject) : ℚ :=
  if self.confidence_history = [] then 0
  else self.confidence_history.sum / (self.confidence_history.length : ℚ)

/-- `TrackedObject.get_object_size_ratio`: the source divides the
normalised box area `width * height` by the pixel frame area
`frame_w * frame_h`. -/
def get_object_size_ratio (self : TrackedObject) : ℚ :=
  match self.get_current_position with
  | none => 0
  | some pos =>
      let object_area := pos.width * pos.height
      let frame_area : ℚ := (pos.frame_w : ℚ) * (pos.frame_h : ℚ)
      if 0 < frame_area then object_area / frame_area else 0

/-- `TrackedObject.get_predicted_position(time_ahead)`: linear
extrapolation by the stored velocity; the predicted position keeps the
box size and frame, advances the timestamp, scales confidence by `0.8`,
and (because the source constructor omits it) resets `object_class` to
the default. A stationary object returns its current position itself. -/
def get_predicted_position (self : TrackedObject) (time_ahead : ℚ) :
    Option ObjectPosition :=
  match self.get_current_position with
  | none => none
  | some current_pos =>
      if self.is_moving then
        some { cx := current_pos.cx + self.velocity_x * time_ahead
               cy := current_pos.cy + self.velocity_y * time_ahead
               width := current_pos.width
               height := current_pos.height
               confidence := current_pos.confidence * (4/5)
               timestamp := current_pos.timestamp + time_ahead
               frame_w := current_pos.frame_w
               frame_h := current_pos.frame_h
               object_class := "unknown" }
      else some current_pos

/-- `TrackedObject.is_lost(current_time, timeout)`. -/
def is_lost (self : TrackedObject) (current_time timeout : ℚ) : Bool :=
  timeout < current_time - self.last_seen

/-- `TrackedObject._update_movement_analysis`: average the finite
differences of the last (at most five) positions, skipping pairs with a
non-positive time step, and derive speed and the moving flag. -/
def update_movement_analysis (sq : ℚ → ℚ) (self : TrackedObject) :
    TrackedObject :=
  if self.positions.length < 2 then
    { self with is_moving := false, movement_speed := 0 }
  else
    let recent :=
      if 5 ≤ self.positions.length then
        self.positions.drop (self.positions.length - 5)
      else self.positions
    if recent.length < 2 then self
    else
      let vels := (recent.zip recent.tail).filterMap fun ab =>
        let dt := ab.2.timestamp - ab.1.timestamp
        if 0 < dt then
          some ((ab.2.cx - ab.1.cx) / dt, (ab.2.cy - ab.1.cy) / dt)
        else none
      if vels = [] then self
      else
        let vx := (vels.map Prod.fst).sum / (vels.length : ℚ)
        let vy := (vels.map Prod.snd).sum / (vels.length : ℚ)
        let speed := sq (vx ^ 2 + vy ^ 2)
        { self with velocity_x := vx, velocity_y := vy
                    movement_speed := speed
                    is_moving := decide (1/100 < speed) }

/-- `TrackedObject._update_size_analysis`. -/
def update_size_analysis (self : TrackedObject) : TrackedObject :=
  if self.positions = [] then self
  else
    let sizes := self.positions.map fun p => p.width * p.height
    let avg := sizes.sum / (sizes.length : ℚ)
    let self2 := { self with average_size := avg }
    let self3 :=
      if 1 < sizes.length then
        let variance := (sizes.map fun s => (s - avg) ^ 2).sum / (sizes.length : ℚ)
        { self2 with size_stability := 1 / (1 + variance) }
      else self2
    let ratios := self.positions.map fun p =>
      if 0 < p.height then p.width / p.height else 1
    { self3 with shape_ratio := ratios.sum / (ratios.length : ℚ) }

/-- `TrackedObject._update_tracking_stats`. -/
def update_tracking_stats (self : TrackedObject) (now : ℚ) : TrackedObject :=
  let self2 := { self with time_being_tracked := now - self.first_seen }
  if self2.is_primary_target then
    { self2 with total_tracking_time := self2.total_tracking_time + 33/1000 }
  else self2

/-- `TrackedObject.add_position`: append the sample (evicting beyond the
20-entry history bound) and refresh the derived analyses. -/
def add_position (sq : ℚ → ℚ) (self : TrackedObject) (position : ObjectPosition)
    (now : ℚ) : TrackedObject :=
  let self2 := { self with
    positions := self.positions ++ [position]
    confidence_history := self.confidence_history ++ [position.confidence]
    last_seen := now
    frames_tracked := self.frames_tracked + 1 }
  let max_history : ℕ := 20
  let self3 :=
    if max_history < self2.positions.length then
      { self2 with
        positions := self2.positions.drop (self2.positions.length - max_history)
        confidence_history :=
          self2.confidence_history.drop (self2.confidence_history.length - max_history) }
    else self2
  ((self3.update_movement_analysis sq).update_size_analysis).update_tracking_stats now

end TrackedObject

/-- The callback slots of `MultiObjectPTZTracker`, as a sum of events. -/
inductive PTZEvent where
  | object_detected (id : ℕ)
  | object_lost (id : ℕ)
  | target_switched (old : Option ℕ) (next : ℕ)
  | tracking_update (id : ℕ)
  | zoom_changed (level : ℚ) (ratio : ℚ)
deriving DecidableEq, Repr

/-- A fired callback: which event, the wall time at which it fired, and
whether it was fired from inside `_switch_target` (`fromSwitch = true`)
rather than from `_select_new_target` or elsewhere. -/
structure EventEntry where
  time : ℚ
  event : PTZEvent
  fromSwitch : Bool
deriving DecidableEq, Repr

/-- One entry of `self.zoom_history` (the dict appended just before a
zoom command is dispatched); `new_zoom` is exactly the value handed to
`_send_zoom_command`. -/
structure ZoomRecord where
  timestamp : ℚ
  old_zoom : ℚ
  new_zoom : ℚ
  target_id : ℕ
  object_ratio : ℚ
deriving DecidableEq, Repr

/-- One entry of `self.ptz_movement_history`; `pan_speed`/`tilt_speed`
are exactly the values handed to `_send_ptz_command`. -/
structure PtzMoveRecord where
  timestamp : ℚ
  pan_speed : ℚ
  tilt_speed : ℚ
  target_id : ℕ
  target_cx : ℚ
  target_cy : ℚ
deriving DecidableEq, Repr

/-- The mutable state of a `MultiObjectPTZTracker` instance (camera,
thread and logger handles aside). The insertion-ordered dict
`tracked_objects` is a list in insertion order; `current_target_id` and
`secondary_target_id` use `none` for Python `None` (ids are assigned from
1, so Python truthiness of an id coincides with `Option.isSome`). -/
structure TrackerState where
  tracked_objects : List TrackedObject
  next_object_id : ℕ
  current_target_id : Option ℕ
  secondary_target_id : Option ℕ
  last_switch_time : ℚ
  current_follow_start_time : ℚ
  is_following_primary : Bool
  switch_count : ℕ
  current_zoom_level : ℚ
  target_zoom_level : ℚ
  zoom_history : List ZoomRecord
  zoom_change_count : ℕ
  ptz_movement_history : List PtzMoveRecord
  current_pan_speed : ℚ
  current_tilt_speed : ℚ
  target_pan_speed : ℚ
  target_tilt_speed : ℚ
  total_detections_processed : ℕ
  successful_tracks : ℕ
  failed_tracks : ℕ
deriving DecidableEq, Repr

/-- The state set up by `MultiObjectPTZTracker.__init__`. -/
def initState : TrackerState where
  tracked_objects := []
  next_object_id := 1
  current_target_id := none
  secondary_target_id := none
  last_switch_time := 0
  current_follow_start_time := 0
  is_following_primary := true
  switch_count := 0
  current_zoom_level := 1/2
  target_zoom_level := 1/2
  zoom_history := []
  zoom_change_count := 0
  ptz_movement_history := []
  current_pan_speed := 0
  current_tilt_speed := 0
  target_pan_speed := 0
  target_tilt_speed := 0
  total_detections_processed := 0
  successful_tracks := 0
  failed_tracks := 0

/-- The euclidean distance computed inside `_update_tracked_objects`:
`math.sqrt((pos.cx - current_pos.cx)**2 + (pos.cy - current_pos.cy)**2)`. -/
def distTo (sq : ℚ → ℚ) (current_pos pos : ObjectPosition) : ℚ :=
  sq ((pos.cx - current_pos.cx) ^ 2 + (pos.cy - current_pos.cy) ^ 2)

/-- The inner candidate loop of `_update_tracked_objects`: scan the
remaining detections keeping the best (strictly closer, within 0.1)
match found so far, starting from accumulator `acc`
(`none` plays the role of `best_distance = inf`). -/
def findBestAux (sq : ℚ → ℚ) (current_pos : ObjectPosition) :
    List ObjectPosition → Option (ObjectPosition × ℚ) → Option (ObjectPosition × ℚ)
  | [], acc => acc
  | pos :: rest, acc =>
      let distance := distTo sq current_pos pos
      let better : Bool :=
        match acc with
        | none => decide (distance < 1/10)
        | some bd => decide (distance < bd.2) && decide (distance < 1/10)
      findBestAux sq current_pos rest
        (if better then some (pos, distance) else acc)

/-- Best match for one track: the detection in the pool minimising the
euclidean distance to the track's current position, accepted only when
that distance is strictly below `0.1` (the first such minimiser wins
ties, mirroring the strict `<` update in the source loop). -/
def find_best_match (sq : ℚ → ℚ) (current_pos : ObjectPosition)
    (pool : List ObjectPosition) : Option ObjectPosition :=
  (findBestAux sq current_pos pool none).map Prod.fst

/-- The association phase of `_update_tracked_objects`: walk the tracks
in insertion order, give each its best match (removing it from the pool)
and fire `on_tracking_update`; returns the updated tracks, the leftover
pool and the fired events. -/
def associateAll (sq : ℚ → ℚ) (now : ℚ) :
    List TrackedObject → List ObjectPosition →
    List TrackedObject × List ObjectPosition × List EventEntry
  | [], pool => ([], pool, [])
  | obj :: objs, pool =>
      match obj.get_current_position with
      | none =>
          let r := associateAll sq now objs pool
          (obj :: r.1, r.2.1, r.2.2)
      | some current_pos =>
          match find_best_match sq current_pos pool with
          | none =>
              let r := associateAll sq now objs pool
              (obj :: r.1, r.2.1, r.2.2)
          | some best_match =>
              let obj2 := obj.add_position sq best_match now
              let r := associateAll sq now objs (pool.erase best_match)
              (obj2 :: r.1, r.2.1,
                ⟨now, .tracking_update obj.id, false⟩ :: r.2.2)

/-- The creation phase of `_update_tracked_objects`: each leftover
detection becomes a new track while the track count stays below
`max_objects_to_track`; fires `on_object_detected`. -/
def createNew (sq : ℚ → ℚ) (cfg : MultiObjectConfig) (now : ℚ) :
    List TrackedObject → List ObjectPosition → ℕ →
    List TrackedObject × ℕ × List EventEntry
  | objs, [], next_id => (objs, next_id, [])
  | objs, pos :: rest, next_id =>
      if objs.length < cfg.max_objects_to_track then
        let new_obj := (TrackedObject.new next_id now).add_position sq pos now
        let r := createNew sq cfg now (objs ++ [new_obj]) rest (next_id + 1)
        (r.1, r.2.1, ⟨now, .object_detected next_id, false⟩ :: r.2.2)
      else
        createNew sq cfg now objs rest next_id

/-- `_update_tracked_objects`. -/
def update_tracked_objects (sq : ℚ → ℚ) (cfg : MultiObjectConfig)
    (s : TrackerState) (new_positions : List ObjectPosition) (now : ℚ) :
    TrackerState × List EventEntry :=
  let ra := associateAll sq now s.tracked_objects new_positions
  let rc := createNew sq cfg now ra.1 ra.2.1 s.next_object_id
  ({ s with tracked_objects := rc.1, next_object_id := rc.2.1 },
   ra.2.2 ++ rc.2.2)

/-- Python `max(keys, key=score)` over the tracked-object dict: the first
object (in insertion order) attaining the maximal priority score. -/
def maxByPriority : List TrackedObject → Option TrackedObject
  | [] => none
  | obj :: objs =>
      some (objs.foldl
        (fun acc o => if acc.priority_score < o.priority_score then o else acc) obj)

/-- `_select_new_target`: pick the highest-priority object as the new
primary; when that actually changes the target, reset the dwell timer,
rewrite every `is_primary_target` flag and fire `on_target_switched`
(note: no debounce check and no update of `last_switch_time` here). -/
def select_new_target (s : TrackerState) (now : ℚ) :
    TrackerState × List EventEntry :=
  match maxByPriority s.tracked_objects with
  | none => ({ s with current_target_id := none }, [])
  | some best =>
      if some best.id ≠ s.current_target_id then
        ({ s with
            current_target_id := some best.id
            current_follow_start_time := now
            is_following_primary := true
            tracked_objects := s.tracked_objects.map fun o =>
              { o with is_primary_target := o.id == best.id } },
         [⟨now, .target_switched s.current_target_id best.id, false⟩])
      else (s, [])

/-- `_update_target_flags`. -/
def update_target_flags (s : TrackerState) (now : ℚ) : TrackerState :=
  { s with tracked_objects := s.tracked_objects.map fun o =>
      let o2 := { o with is_primary_target := some o.id == s.current_target_id }
      if o2.is_primary_target then { o2 with last_targeted_time := now } else o2 }

/-- Stable insertion of one object into a descending-priority list:
placed after every already-present object of `≥` priority, which is what
Python's stable `sorted(..., reverse=True)` produces when folded over the
insertion order. -/
def insertByPriority (o : TrackedObject) :
    List TrackedObject → List TrackedObject
  | [] => [o]
  | x :: xs =>
      if x.priority_score < o.priority_score then o :: x :: xs
      else x :: insertByPriority o xs

/-- Python `sorted(tracked_objects.items(), key=priority, reverse=True)`. -/
def sortByPriorityDesc (objs : List TrackedObject) : List TrackedObject :=
  objs.foldl (fun acc o => insertByPriority o acc) []

/-- `_switch_target`: debounced by `min_switch_interval`; alternates
primary → second-ranked (stashing the top rank in
`secondary_target_id`) or secondary → stashed id; in every non-debounced
call — switch or not — it resets `last_switch_time` and the dwell timer
and increments `switch_count`. -/
def switch_target (cfg : MultiObjectConfig) (s : TrackerState) (now : ℚ) :
    TrackerState × List EventEntry :=
  if now - s.last_switch_time < cfg.min_switch_interval then (s, [])
  else
    let r :=
      if s.is_following_primary then
        if 1 < s.tracked_objects.length then
          match sortByPriorityDesc s.tracked_objects with
          | o0 :: o1 :: _ =>
              let s3 := { s with
                current_target_id := some o1.id
                secondary_target_id := some o0.id
                is_following_primary := false }
              (update_target_flags s3 now,
               [⟨now, .target_switched s.current_target_id o1.id, true⟩])
          | _ => (s, [])
        else (s, [])
      else
        match s.secondary_target_id with
        | some sid =>
            if s.tracked_objects.any (·.id == sid) then
              let s3 := { s with
                current_target_id := some sid
                secondary_target_id := none
                is_following_primary := true }
              (update_target_flags s3 now,
               [⟨now, .target_switched s.current_target_id sid, true⟩])
            else (s, [])
        | none => (s, [])
    ({ r.1 with
        last_switch_time := now
        current_follow_start_time := now
        switch_count := r.1.switch_count + 1 }, r.2)

/-- `_check_target_switching`. -/
def check_target_switching (cfg : MultiObjectConfig) (s : TrackerState)
    (now : ℚ) : TrackerState × List EventEntry :=
  if cfg.alternating_enabled = false then (s, [])
  else
    match s.current_target_id with
    | none => select_new_target s now
    | some _ =>
        let follow_time := now - s.current_follow_start_time
        let max_time :=
          if s.is_following_primary then cfg.primary_follow_time
          else cfg.secondary_follow_time
        if max_time ≤ follow_time ∨
            cfg.max_switch_interval ≤ now - s.last_switch_time then
          switch_target cfg s now
        else (s, [])

/-- The pruning loop of `_handle_lost_objects`: delete each collected id,
fire `on_object_lost`, and when the deleted id was the current target,
clear it and immediately run `_select_new_target`. -/
def processLost (s : TrackerState) (now : ℚ) :
    List ℕ → TrackerState × List EventEntry
  | [] => (s, [])
  | oid :: rest =>
      let s2 := { s with
        tracked_objects := s.tracked_objects.eraseP (·.id == oid) }
      let r3 :=
        if s2.current_target_id = some oid then
          select_new_target { s2 with current_target_id := none } now
        else (s2, [])
      let r4 := processLost r3.1 now rest
      (r4.1, ⟨now, .object_lost oid, false⟩ :: (r3.2 ++ r4.2))

/-- `_handle_lost_objects`. -/
def handle_lost_objects (cfg : MultiObjectConfig) (s : TrackerState)
    (current_time : ℚ) : TrackerState × List EventEntry :=
  processLost s current_time
    ((s.tracked_objects.filter
        (·.is_lost current_time cfg.object_lifetime)).map (·.id))

/-- The per-object body of `_update_object_priorities` (the source reads
the clock there but never uses it; the tenure bonus comes from the stored
`time_being_tracked`). -/
def computeObjectPriority (sq : ℚ → ℚ) (cfg : MultiObjectConfig)
    (obj : TrackedObject) : ℚ :=
  let confidence_score := obj.get_average_confidence
  let movement_score :=
    if obj.is_moving then min (obj.movement_speed * 10) 1 else 0
  let size_score := min (obj.get_object_size_ratio * 4) 1
  let proximity_score :=
    match obj.get_current_position with
    | some current_pos => 1 - current_pos.distance_to_center sq
    | none => 0
  let priority :=
    confidence_score * cfg.confidence_weight +
    movement_score * cfg.movement_weight +
    size_score * cfg.size_weight +
    proximity_score * cfg.proximity_weight
  let tracking_bonus := min (obj.time_being_tracked / 10) (1/5)
  priority + tracking_bonus

/-- `_update_object_priorities`. -/
def update_object_priorities (sq : ℚ → ℚ) (cfg : MultiObjectConfig)
    (s : TrackerState) : TrackerState :=
  { s with tracked_objects := s.tracked_objects.map fun obj =>
      { obj with priority_score := computeObjectPriority sq cfg obj } }

/-- `_calculate_ptz_movement`: proportional control with gain 2 and
negated tilt, clamped to the configured maxima, and then — after the
clamp — multiplied by `1 + distance` when `adaptive_zoom` is set and the
target is more than `0.1` from the centre. -/
def calculate_ptz_movement (sq : ℚ → ℚ) (cfg : MultiObjectConfig)
    (target_pos : ObjectPosition) : ℚ × ℚ :=
  let error_x := target_pos.cx - 1/2
  let error_y := target_pos.cy - 1/2
  let distance_factor := sq (error_x ^ 2 + error_y ^ 2)
  let pan_speed := error_x * 2
  let tilt_speed := -error_y * 2
  let pan_speed := max (-cfg.max_pan_speed) (min cfg.max_pan_speed pan_speed)
  let tilt_speed := max (-cfg.max_tilt_speed) (min cfg.max_tilt_speed tilt_speed)
  if cfg.adaptive_zoom = true ∧ 1/10 < distance_factor then
    let speed_multiplier := 1 + distance_factor
    (pan_speed * speed_multiplier, tilt_speed * speed_multiplier)
  else (pan_speed, tilt_speed)

/-- `_execute_tracking`: target position (predicted when enabled and
moving), PTZ command, exponential smoothing, dispatch (recorded in
`ptz_movement_history`, trimmed to the last 50 past 100 entries). -/
def execute_tracking (sq : ℚ → ℚ) (cfg : MultiObjectConfig)
    (s : TrackerState) (now : ℚ) : TrackerState × List EventEntry :=
  match s.current_target_id with
  | none => (s, [])
  | some tid =>
      match s.tracked_objects.find? (·.id == tid) with
      | none => (s, [])
      | some target_obj =>
          let target_pos :=
            if cfg.prediction_enabled = true ∧ target_obj.is_moving = true then
              target_obj.get_predicted_position cfg.prediction_time
            else target_obj.get_current_position
          match target_pos with
          | none => (s, [])
          | some tp =>
              let pt := calculate_ptz_movement sq cfg tp
              let s2 := { s with
                target_pan_speed := pt.1, target_tilt_speed := pt.2 }
              let s3 :=
                if 0 < cfg.movement_smoothing then
                  { s2 with
                    current_pan_speed :=
                      s2.current_pan_speed * cfg.movement_smoothing +
                      s2.target_pan_speed * (1 - cfg.movement_smoothing)
                    current_tilt_speed :=
                      s2.current_tilt_speed * cfg.movement_smoothing +
                      s2.target_tilt_speed * (1 - cfg.movement_smoothing) }
                else
                  { s2 with
                    current_pan_speed := s2.target_pan_speed
                    current_tilt_speed := s2.target_tilt_speed }
              let s4 := { s3 with
                ptz_movement_history := s3.ptz_movement_history ++ [PtzMoveRecord.mk now s3.current_pan_speed s3.current_tilt_speed tid tp.cx tp.cy] }
              let s5 :=
                if 100 < s4.ptz_movement_history.length then
                  { s4 with ptz_movement_history := s4.ptz_movement_history.drop (s4.ptz_movement_history.length - 50) }
                else s4
              ({ s5 with successful_tracks := s5.successful_tracks + 1 }, [])

/-- `_update_auto_zoom`: step the zoom set-point by `±0.1` (clamped)
outside the `±20%` deadband around `target_object_ratio`, then move the
current level toward the set-point by the `zoom_speed` fraction when the
gap exceeds the `0.05` hysteresis, dispatching the new level (recorded in
`zoom_history`) and firing `on_zoom_changed`. -/
def update_auto_zoom (cfg : MultiObjectConfig) (s : TrackerState)
    (now : ℚ) : TrackerState × List EventEntry :=
  match s.current_target_id with
  | none => (s, [])
  | some tid =>
      match s.tracked_objects.find? (·.id == tid) with
      | none => (s, [])
      | some target_obj =>
          match target_obj.get_current_position with
          | none => (s, [])
          | some current_pos =>
              let object_ratio := current_pos.width * current_pos.height
              let target_ratio := cfg.target_object_ratio
              let s2 :=
                if object_ratio < target_ratio * (4/5) then
                  { s with target_zoom_level := min (s.target_zoom_level + 1/10) cfg.max_zoom_level }
                else if target_ratio * (6/5) < object_ratio then
                  { s with target_zoom_level := max (s.target_zoom_level - 1/10) cfg.min_zoom_level }
                else s
              let zoom_diff := s2.target_zoom_level - s2.current_zoom_level
              if 1/20 < |zoom_diff| then
                let zoom_step := zoom_diff * cfg.zoom_speed
                let new_zoom := s2.current_zoom_level + zoom_step
                let s3 := { s2 with
                  zoom_history := s2.zoom_history ++ [ZoomRecord.mk now s2.current_zoom_level new_zoom tid object_ratio]
                  current_zoom_level := new_zoom
                  zoom_change_count := s2.zoom_change_count + 1 }
                (s3, [⟨now, .zoom_changed s3.current_zoom_level object_ratio,
                       false⟩])
              else (s2, [])

/-- `update_detections`: count the batch, convert and filter detections
(confidence below threshold, size outside bounds), associate and create,
then prune lost objects. -/
def update_detections (sq : ℚ → ℚ) (cfg : MultiObjectConfig)
    (s : TrackerState) (now : ℚ) (detections : List Detection) :
    TrackerState × List EventEntry :=
  let s1 := { s with total_detections_processed :=
      s.total_detections_processed + detections.length }
  let new_positions : List ObjectPosition := detections.filterMap fun det =>
    if det.confidence < cfg.min_confidence_threshold then none
    else
      let pos : ObjectPosition :=
        { cx := det.cx, cy := det.cy, width := det.width, height := det.height
          confidence := det.confidence, timestamp := now
          frame_w := det.frame_w, frame_h := det.frame_h
          object_class := det.object_class }
      let size_ratio := pos.width * pos.height
      if size_ratio < cfg.min_object_size ∨ cfg.max_object_size < size_ratio then
        none
      else some pos
  let r2 := update_tracked_objects sq cfg s1 new_positions now
  let r3 := handle_lost_objects cfg r2.1 now
  (r3.1, r2.2 ++ r3.2)

/-- The entry points through which tracker state evolves: detection
ingress plus the four phases of one `_tracking_loop` tick (a tick is the
trace fragment `[check, prioritize, track, zoom]`). -/
inductive Op where
  | update (detections : List Detection)
  | check
  | prioritize
  | track
  | zoom
deriving DecidableEq, Repr

/-- Apply one operation at wall time `now`. -/
def applyOp (sq : ℚ → ℚ) (cfg : MultiObjectConfig) (s : TrackerState)
    (now : ℚ) : Op → TrackerState × List EventEntry
  | .update dets => update_detections sq cfg s now dets
  | .check => check_target_switching cfg s now
  | .prioritize => (update_object_priorities sq cfg s, [])
  | .track => execute_tracking sq cfg s now
  | .zoom =>
      if cfg.auto_zoom_enabled = true then update_auto_zoom cfg s now
      else (s, [])

/-- Run a timed sequence of operations, concatenating the fired events. -/
def runOps (sq : ℚ → ℚ) (cfg : MultiObjectConfig) :
    TrackerState → List (ℚ × Op) → TrackerState × List EventEntry
  | s, [] => (s, [])
  | s, (now, op) :: rest =>
      let so := applyOp sq cfg s now op
      let sr := runOps sq cfg so.1 rest
      (sr.1, so.2 ++ sr.2)

/-! ### Association rule as the specification words it (for comparison) -/

/-- The matching cost stated by the spec (not by the source):
`d = euclidean + 0.1 * (|dw| + |dh|)`. -/
def specMatchDistance (sq : ℚ → ℚ) (cur det : ObjectPosition) : ℚ :=
  distTo sq cur det + 1/10 * (|det.width - cur.width| + |det.height - cur.height|)

/-- The association gate stated by the spec (not by the source):
`base_gate = 0.05` for a stationary track, `min(2 * base_gate, k * speed)`
for a moving one (the spec leaves the constant `k` open). -/
def specGate (k speed : ℚ) (moving : Bool) : ℚ :=
  if moving then min (2 * (1/20)) (k * speed) else 1/20

/-- The matcher stated by the spec (not by the source): minimise
`specMatchDistance` over detections whose euclidean distance is within
the gate, lower index winning ties. -/
def specFindBestAux (sq : ℚ → ℚ) (k speed : ℚ) (moving : Bool)
    (cur : ObjectPosition) :
    List ObjectPosition → Option (ObjectPosition × ℚ) → Option (ObjectPosition × ℚ)
  | [], acc => acc
  | det :: rest, acc =>
      let d := specMatchDistance sq cur det
      let inGate : Bool := decide (distTo sq cur det ≤ specGate k speed moving)
      let better : Bool :=
        inGate && (match acc with
                   | none => true
                   | some bd => decide (d < bd.2))
      specFindBestAux sq k speed moving cur rest
        (if better then some (det, d) else acc)

/-- Entry point of the matcher stated by the spec (not by the source). -/
def specFindBestMatch (sq : ℚ → ℚ) (k speed : ℚ) (moving : Bool)
    (cur : ObjectPosition) (pool : List ObjectPosition) :
    Option ObjectPosition :=
  (specFindBestAux sq k speed moving cur pool none).map Prod.fst

/-! ### Concrete inputs used by the claim-level statements -/

/-- A target on the right-hand frame edge (used against C1). -/
def posC1 : ObjectPosition :=
  { cx := 1, cy := 1/2, width := 1/10, height := 1/10
    confidence := 9/10, timestamp := 0 }

/-- A centred detection covering a quarter of the frame (used for C2). -/
def posC2 : ObjectPosition :=
  { cx := 1/2, cy := 1/2, width := 1/2, height := 1/2
    confidence := 4/5, timestamp := 0 }

/-- The track holding `posC2` as its only sample, built through
`add_position` at time 0 so that every derived field is the one the
source computes. -/
def objC2 : TrackedObject := (TrackedObject.new 1 0).add_position ratSqrt posC2 0

/-- Detection at `(0.3, 0.5)` with confidence `0.9`. -/
def detA0 : Detection :=
  { cx := 3/10, cy := 1/2, width := 1/10, height := 1/10, confidence := 9/10 }

/-- Detection at `(0.7, 0.5)` with confidence `0.8`. -/
def detB0 : Detection :=
  { cx := 7/10, cy := 1/2, width := 1/10, height := 1/10, confidence := 4/5 }

/-- Detection at `(0.31, 0.5)`, matching the track created from `detA0`. -/
def detA1 : Detection :=
  { cx := 31/100, cy := 1/2, width := 1/10, height := 1/10, confidence := 9/10 }

/-- A seven-step run: create two tracks, select, keep track 1 fresh,
switch at `t = 10`, then lose the (stale) new target at `t = 10.1`. -/
def traceC3 : List (ℚ × Op) :=
  [(0, .update [detA0, detB0]), (0, .prioritize), (0, .check),
   (5, .update [detA1, detB0]), (8, .update [detA0]),
   (10, .check), (101/10, .update [])]

/-- Recognise `target_switched` events. -/
def isSwitchedEvent (e : EventEntry) : Bool :=
  match e.event with
  | .target_switched _ _ => true
  | _ => false

/-- A reachable state with exactly one (fresh at time 0) tracked object
that is the current target, `last_switch_time = 0`. -/
def oneObjectState : TrackerState :=
  (runOps ratSqrt maritime_standard initState
    [(0, .update [detA0]), (0, .prioritize), (0, .check)]).1

/-- The moving track of C10: two in-square samples one second apart,
giving velocity `(0.49, 0)`. -/
def objC10 : TrackedObject :=
  ((TrackedObject.new 1 0).add_position ratSqrt
      { cx := 1/2, cy := 1/2, width := 1/10, height := 1/10
        confidence := 9/10, timestamp := 0 } 0).add_position ratSqrt
      { cx := 99/100, cy := 1/2, width := 1/10, height := 1/10
        confidence := 9/10, timestamp := 1 } 1

/-- A stationary track at `(0.5, 0.5)` (used against C5). -/
def curC5 : ObjectPosition :=
  { cx := 1/2, cy := 1/2, width := 1/10, height := 1/10
    confidence := 9/10, timestamp := 0 }

/-- A detection `0.07` away from `curC5`: inside the source gate `0.1`,
outside the spec gate `0.05`. -/
def detC5 : ObjectPosition :=
  { cx := 1/2 + 42/1000, cy := 1/2 + 56/1000, width := 1/10, height := 1/10
    confidence := 9/10, timestamp := 1 }

/-! ### C1 -/

/-- C1 (counterexample): with the default configuration (where
`adaptive_zoom = true` and `max_pan_speed = 0.8`), the target `posC1` at
the frame edge makes `_calculate_ptz_movement` return pan speed `1.2`,
strictly above `max_pan_speed` — the adaptive multiplier is applied
after the clamp. The last two conjuncts certify that `ratSqrt` returns
the true square root of the centre-distance radicand here. -/
theorem C1_adaptive_gain_exceeds_limit :
    calculate_ptz_movement ratSqrt maritime_standard posC1 = (6/5, 0) ∧
    maritime_standard.max_pan_speed < 6/5 ∧
    maritime_standard.adaptive_zoom = true ∧
    ratSqrt ((posC1.cx - 1/2) ^ 2 + (posC1.cy - 1/2) ^ 2) = 1/2 ∧
    ((1 : ℚ)/2) ^ 2 = (posC1.cx - 1/2) ^ 2 + (posC1.cy - 1/2) ^ 2 := by
  decide

/-- C1 (amended): the pan/tilt pair returned by `_calculate_ptz_movement`
lies within `[-max_pan, max_pan] × [-max_tilt, max_tilt]` whenever the
adaptive branch is not taken — that is, when `adaptive_zoom` is disabled
or the target's centre distance is at most `0.1`; when the adaptive
branch is taken the clamped pair is multiplied by `1 + distance` and can
exceed the limits. -/
theorem C1_pan_tilt_clamped_nonadaptive (sq : ℚ → ℚ)
    (cfg : MultiObjectConfig) (pos : ObjectPosition)
    (hpan : 0 ≤ cfg.max_pan_speed) (htilt : 0 ≤ cfg.max_tilt_speed)
    (hna : cfg.adaptive_zoom = false ∨
      sq ((pos.cx - 1/2) ^ 2 + (pos.cy - 1/2) ^ 2) ≤ 1/10) :
    |(calculate_ptz_movement sq cfg pos).1| ≤ cfg.max_pan_speed ∧
    |(calculate_ptz_movement sq cfg pos).2| ≤ cfg.max_tilt_speed := by
  have hcond : ¬ (cfg.adaptive_zoom = true ∧
      1/10 < sq ((pos.cx - 1/2) ^ 2 + (pos.cy - 1/2) ^ 2)) := by
    rcases hna with h | h
    · rintro ⟨h1, -⟩
      rw [h] at h1
      exact Bool.false_ne_true h1
    · rintro ⟨-, h2⟩
      exact absurd h2 (not_lt.mpr h)
  unfold calculate_ptz_movement
  rw [if_neg hcond]
  refine ⟨abs_le.mpr ⟨le_max_left _ _, max_le (by linarith) (min_le_left _ _)⟩,
    abs_le.mpr ⟨le_max_left _ _, max_le (by linarith) (min_le_left _ _)⟩⟩

/-- Witness for the amended C1 bound at the default configuration with
`adaptive_zoom` turned off and the edge target `posC1`. -/
theorem C1_pan_tilt_clamped_nonadaptive_witness :
    0 ≤ ({ maritime_standard with adaptive_zoom := false } : MultiObjectConfig).max_pan_speed ∧
    |(calculate_ptz_movement ratSqrt { maritime_standard with adaptive_zoom := false } posC1).1| ≤
      ({ maritime_standard with adaptive_zoom := false } : MultiObjectConfig).max_pan_speed :=
  ⟨by decide,
   (C1_pan_tilt_clamped_nonadaptive ratSqrt
      { maritime_standard with adaptive_zoom := false } posC1
      (by decide) (by decide) (Or.inl rfl)).1⟩

/-! ### C2 -/

/-- C2 (code bug evaluation): for the centred quarter-frame track
`objC2` (one sample, `w = h = 0.5`, confidence `0.8`, frame
`1920 x 1080`, zero tenure), `_update_object_priorities` produces
`0.42 + 0.2/2073600`, not the `0.62` the claimed formula gives, because
`get_object_size_ratio` divides the normalised area `w * h = 1/4` by the
pixel frame area `1920 * 1080` instead of using the normalised area:
the claimed `score_size = clamp(4 * (w * h), 0, 1) = 1` becomes
`min(4 * (1/4) / 2073600, 1) = 1/2073600` in the code. -/
theorem C2_size_ratio_priority_eval :
    objC2.get_object_size_ratio = 1/8294400 ∧
    posC2.width * posC2.height = 1/4 ∧
    (update_object_priorities ratSqrt maritime_standard
        { initState with tracked_objects := [objC2] }).tracked_objects.map
      TrackedObject.priority_score = [4354561/10368000] ∧
    objC2.get_average_confidence * maritime_standard.confidence_weight +
      0 * maritime_standard.movement_weight +
      min (4 * (posC2.width * posC2.height)) 1 * maritime_standard.size_weight +
      1 * maritime_standard.proximity_weight +
      min (objC2.time_being_tracked / 10) (1/5) = 31/50 ∧
    (4354561 : ℚ)/10368000 ≠ 31/50 := by
  decide

/-! ### C3 -/

/-- C3 (counterexample): along the concrete run `traceC3` the engine
fires `target_switched` at times `0`, `10` and `10.1`; the last two are
`0.1 < min_switch_interval = 1` apart, because the third event is fired
by `_select_new_target` (after the current target was pruned) which
performs no interval check. -/
theorem C3_select_breaks_min_interval :
    ((runOps ratSqrt maritime_standard initState traceC3).2.filter
        isSwitchedEvent).map EventEntry.time = [0, 10, 101/10] ∧
    (101/10 : ℚ) - 10 < maritime_standard.min_switch_interval := by
  decide

/-! ### C4 -/

/-- C4 (counterexample): calling `update_detections` with an empty batch
on `oneObjectState` at time `10` is not a no-op — the single tracked
object (silent since time 0, with `object_lifetime = 3`) is pruned and
`object_lost` fires. -/
theorem C4_empty_batch_prunes_stale :
    (update_detections ratSqrt maritime_standard oneObjectState 10 []).1.tracked_objects = [] ∧
    oneObjectState.tracked_objects.length = 1 ∧
    (update_detections ratSqrt maritime_standard oneObjectState 10 []).2 ≠ [] := by
  decide

/-! ### C5 -/

/-- C5 (counterexample): a stationary track at the centre and a single
detection `0.07` away (a 3-4-5 offset, so the root is exact). The
source matcher accepts it (`0.07 < 0.1`), while the matcher written as
the spec words it rejects it (`0.07 > base_gate = 0.05`); the spec's
open constant `k` is irrelevant for a stationary track, it is
instantiated with `1` here. -/
theorem C5_gate_differs_from_spec :
    find_best_match ratSqrt curC5 [detC5] = some detC5 ∧
    specFindBestMatch ratSqrt 1 0 false curC5 [detC5] = none ∧
    distTo ratSqrt curC5 detC5 = 7/100 ∧
    ((7 : ℚ)/100) ^ 2 = (detC5.cx - curC5.cx) ^ 2 + (detC5.cy - curC5.cy) ^ 2 ∧
    (1 : ℚ)/20 < 7/100 ∧ (7 : ℚ)/100 < 1/10 := by
  decide

/-! ### C9 -/

/-- C9 (counterexample): `_switch_target` called on the reachable state
`oneObjectState` (following the primary with a single live track) at
time `0.5`, i.e. within `min_switch_interval` of `last_switch_time = 0`,
returns with the state completely unchanged: in particular
`switch_count` is not incremented and the dwell timer is not reset,
contrary to the claim's unconditional "still increments". -/
theorem C9_debounced_call_is_noop :
    switch_target maritime_standard oneObjectState (1/2) = (oneObjectState, []) ∧
    oneObjectState.is_following_primary = true ∧
    oneObjectState.tracked_objects.length = 1 ∧
    (1 : ℚ)/2 - oneObjectState.last_switch_time <
      maritime_standard.min_switch_interval ∧
    (switch_target maritime_standard oneObjectState (1/2)).1.switch_count =
      oneObjectState.switch_count := by
  decide

/-! ### C10 -/

/-- C10: `get_predicted_position` performs no clamping: the track
`objC10` has both stored samples inside the unit square, is moving
(velocity `0.49` per second as computed by the movement analysis, whose
radicand `0.2401` has the exact root certified below), and its `0.1 s`
prediction has `cx = 1.039 > 1`, outside the documented detection
coordinate range. -/
theorem C10_prediction_escapes_unit_square :
    (∀ p ∈ objC10.positions, 0 ≤ p.cx ∧ p.cx ≤ 1 ∧ 0 ≤ p.cy ∧ p.cy ≤ 1) ∧
    objC10.is_moving = true ∧
    (objC10.get_predicted_position (1/10)).map ObjectPosition.cx =
      some (1039/1000) ∧
    (1 : ℚ) < 1039/1000 ∧
    objC10.movement_speed = 49/100 ∧
    ((49 : ℚ)/100) ^ 2 = objC10.velocity_x ^ 2 + objC10.velocity_y ^ 2 := by
  decide

/-! ### C8 -/

/-- Consistency of a track's stored motion fields, as
`_update_movement_analysis` establishes them under the engine's square
root `sq`: the speed is `sq` of the squared-velocity sum and the moving
flag is the `speed > 0.01` test on it. -/
def movementConsistent (sq : ℚ → ℚ) (obj : TrackedObject) : Prop :=
  obj.movement_speed = sq (obj.velocity_x ^ 2 + obj.velocity_y ^ 2) ∧
  obj.is_moving = decide (1/100 < obj.movement_speed)

/-- C8: prediction round-trip. A track with zero velocity (hence, by the
movement analysis, not moving) predicts its current position unchanged —
the very same `ObjectPosition`, confidence included; a moving track's
prediction advances the centre linearly, keeps the box size, advances
the timestamp, and multiplies the confidence by `0.8`. -/
theorem C8_prediction_roundtrip (sq : ℚ → ℚ) (obj obj2 : TrackedObject)
    (t : ℚ) (p : ObjectPosition)
    (hz : sq 0 = 0) (hc : movementConsistent sq obj)
    (hx : obj.velocity_x = 0) (hy : obj.velocity_y = 0)
    (hm : obj2.is_moving = true) (hp : obj2.get_current_position = some p) :
    obj.get_predicted_position t = obj.get_current_position ∧
    obj2.get_predicted_position t =
      some { cx := p.cx + obj2.velocity_x * t
             cy := p.cy + obj2.velocity_y * t
             width := p.width, height := p.height
             confidence := p.confidence * (4/5)
             timestamp := p.timestamp + t
             frame_w := p.frame_w, frame_h := p.frame_h
             object_class := "unknown" } := by
  constructor
  · have h0 : obj.velocity_x ^ 2 + obj.velocity_y ^ 2 = 0 := by
      rw [hx, hy]; norm_num
    have hs : obj.movement_speed = 0 := by rw [hc.1, h0, hz]
    have hnm : obj.is_moving = false := by rw [hc.2, hs]; norm_num
    cases hcp : obj.get_current_position with
    | none => simp [TrackedObject.get_predicted_position, hcp]
    | some cur => simp [TrackedObject.get_predicted_position, hcp, hnm]
  · simp [TrackedObject.get_predicted_position, hp, hm]

/-- The latest stored position of `objC10` (used to witness C8). -/
def pMovW : ObjectPosition :=
  { cx := 99/100, cy := 1/2, width := 1/10, height := 1/10
    confidence := 9/10, timestamp := 1 }

/-- A stationary one-sample track (used to witness C8). -/
def objStillW : TrackedObject :=
  (TrackedObject.new 3 0).add_position ratSqrt
    { cx := 1/2, cy := 1/2, width := 1/10, height := 1/10
      confidence := 9/10, timestamp := 0 } 0

/-- Witness for C8 at the stationary track `objStillW` and the moving
track `objC10`. -/
theorem C8_prediction_roundtrip_witness :
    ratSqrt 0 = 0 ∧ objStillW.velocity_x = 0 ∧ objStillW.velocity_y = 0 ∧
    objStillW.get_predicted_position (1/10) = objStillW.get_current_position :=
  ⟨by decide, by decide, by decide,
   (C8_prediction_roundtrip ratSqrt objStillW objC10 (1/10) pMovW
      (by decide) ⟨by decide, by decide⟩ (by decide) (by decide)
      (by decide) (by decide)).1⟩

/-! ### C9 (amended theorem) -/

/-- C9 (amended): provided at least `min_switch_interval` has elapsed
since `last_switch_time` (otherwise the call is a complete no-op), a
`_switch_target` call with no alternate available — following the
primary with at most one live track, or following the secondary with
`secondary_target_id` absent from the track set — leaves targets and
flags unchanged, fires nothing, yet resets `last_switch_time` and the
dwell timer and increments `switch_count`. -/
theorem C9_no_alternate_still_counts (cfg : MultiObjectConfig)
    (s : TrackerState) (now : ℚ)
    (hdb : cfg.min_switch_interval ≤ now - s.last_switch_time)
    (hna : (s.is_following_primary = true ∧ s.tracked_objects.length ≤ 1) ∨
           (s.is_following_primary = false ∧
             ∀ sid, s.secondary_target_id = some sid →
               s.tracked_objects.any (·.id == sid) = false)) :
    switch_target cfg s now =
      ({ s with
          last_switch_time := now
          current_follow_start_time := now
          switch_count := s.switch_count + 1 }, []) := by
  unfold switch_target
  rw [if_neg (not_lt.mpr hdb)]
  rcases hna with ⟨hf, hlen⟩ | ⟨hf, hsec⟩
  · have h1 : ¬ (1 < s.tracked_objects.length) := by omega
    simp [hf, h1]
  · cases hst : s.secondary_target_id with
    | none => simp [hf, hst]
    | some sid => simp [hf, hst, hsec sid hst]

/-- Witness for the amended C9 at `oneObjectState` and time `2`. -/
theorem C9_no_alternate_still_counts_witness :
    maritime_standard.min_switch_interval ≤ 2 - oneObjectState.last_switch_time ∧
    switch_target maritime_standard oneObjectState 2 =
      ({ oneObjectState with
          last_switch_time := 2
          current_follow_start_time := 2
          switch_count := oneObjectState.switch_count + 1 }, []) :=
  ⟨by decide,
   C9_no_alternate_still_counts maritime_standard oneObjectState 2 (by decide)
     (Or.inl ⟨by decide, by decide⟩)⟩

/-! ### C4 (amended theorem) -/

/-- With an empty candidate pool the association phase returns every
track unchanged, the empty pool, and no events. -/
lemma associateAll_nil_pool (sq : ℚ → ℚ) (now : ℚ) :
    ∀ objs, associateAll sq now objs [] = (objs, [], [])
  | [] => rfl
  | obj :: objs => by
      have ih := associateAll_nil_pool sq now objs
      unfold associateAll
      cases hcp : obj.get_current_position <;>
        simp [hcp, ih, find_best_match, findBestAux]

/-- C4 (amended): an empty detection batch is a no-op — the whole
tracker state is returned unchanged (in particular
`total_detections_processed`) and no callback fires — provided no
tracked object has been silent longer than `object_lifetime` at the
call time; `C4_empty_batch_prunes_stale` shows the proviso is needed. -/
theorem C4_empty_batch_noop_when_fresh (sq : ℚ → ℚ)
    (cfg : MultiObjectConfig) (s : TrackerState) (now : ℚ)
    (hfresh : ∀ o ∈ s.tracked_objects,
      o.is_lost now cfg.object_lifetime = false) :
    update_detections sq cfg s now [] = (s, []) := by
  have hfilter :
      s.tracked_objects.filter (·.is_lost now cfg.object_lifetime) = [] :=
    List.filter_eq_nil_iff.mpr fun o ho => by simp [hfresh o ho]
  unfold update_detections update_tracked_objects handle_lost_objects
  simp [associateAll_nil_pool, createNew, hfilter, processLost]

/-- Witness for the amended C4: on `oneObjectState` at time `2` (the
single object was seen at time 0 and `object_lifetime = 3`) the empty
submit returns the state unchanged and fires nothing. -/
theorem C4_empty_batch_noop_when_fresh_witness :
    update_detections ratSqrt maritime_standard oneObjectState 2 [] =
      (oneObjectState, []) :=
  C4_empty_batch_noop_when_fresh ratSqrt maritime_standard oneObjectState 2
    (by decide)

/-! ### C5 (amended theorem) -/

/-- Whether a candidate distance beats the accumulator of the candidate
loop (`none` is the initial `best_distance = inf`). -/
def accBeats : Option (ObjectPosition × ℚ) → ℚ → Prop
  | none, _ => True
  | some bd, d => d < bd.2

/-- One unfolding of the candidate loop when the candidate is accepted. -/
lemma findBestAux_cons_pos (sq : ℚ → ℚ) (cur p : ObjectPosition)
    (ps : List ObjectPosition) (acc : Option (ObjectPosition × ℚ))
    (hgate : distTo sq cur p < 1/10) (hbeat : accBeats acc (distTo sq cur p)) :
    findBestAux sq cur (p :: ps) acc =
      findBestAux sq cur ps (some (p, distTo sq cur p)) := by
  cases acc with
  | none =>
      simp only [findBestAux]
      rw [if_pos (decide_eq_true hgate)]
  | some bd =>
      have hb : distTo sq cur p < bd.2 := hbeat
      have hcond : (decide (distTo sq cur p < bd.2) &&
          decide (distTo sq cur p < 1/10)) = true :=
        Eq.mpr (Bool.and_eq_true _ _) ⟨decide_eq_true hb, decide_eq_true hgate⟩
      simp only [findBestAux]
      rw [if_pos hcond]

/-- One unfolding of the candidate loop when the candidate is rejected. -/
lemma findBestAux_cons_neg (sq : ℚ → ℚ) (cur p : ObjectPosition)
    (ps : List ObjectPosition) (acc : Option (ObjectPosition × ℚ))
    (h : ¬ (distTo sq cur p < 1/10 ∧ accBeats acc (distTo sq cur p))) :
    findBestAux sq cur (p :: ps) acc = findBestAux sq cur ps acc := by
  cases acc with
  | none =>
      have hgate : ¬ distTo sq cur p < 1/10 := fun hg => h ⟨hg, trivial⟩
      simp only [findBestAux]
      rw [if_neg (fun hd => hgate (of_decide_eq_true hd))]
  | some bd =>
      have hcond : ¬ ((decide (distTo sq cur p < bd.2) &&
          decide (distTo sq cur p < 1/10)) = true) := by
        intro hd
        have hd2 := Eq.mp (Bool.and_eq_true _ _) hd
        exact h ⟨of_decide_eq_true hd2.2,
          (of_decide_eq_true hd2.1 : distTo sq cur p < bd.2)⟩
      simp only [findBestAux]
      rw [if_neg hcond]

/-- Full characterisation of the candidate loop: either nothing in the
pool passes the gate and beats the accumulator (result unchanged), or
the result is the first candidate attaining the minimal distance among
gate-passing accumulator-beating candidates. -/
lemma findBestAux_spec (sq : ℚ → ℚ) (cur : ObjectPosition) :
    ∀ (pool : List ObjectPosition) (acc : Option (ObjectPosition × ℚ)),
      (findBestAux sq cur pool acc = acc ∧
        ∀ e ∈ pool,
          ¬ (distTo sq cur e < 1/10 ∧ accBeats acc (distTo sq cur e))) ∨
      (∃ m l1 l2, pool = l1 ++ m :: l2 ∧
        findBestAux sq cur pool acc = some (m, distTo sq cur m) ∧
        distTo sq cur m < 1/10 ∧ accBeats acc (distTo sq cur m) ∧
        (∀ e ∈ pool, distTo sq cur m ≤ distTo sq cur e) ∧
        (∀ e ∈ l1, distTo sq cur m < distTo sq cur e))
  | [], acc => Or.inl ⟨rfl, by simp⟩
  | p :: ps, acc => by
      by_cases hgate : distTo sq cur p < 1/10
      · by_cases hbeat : accBeats acc (distTo sq cur p)
        · have hstep := findBestAux_cons_pos sq cur p ps acc hgate hbeat
          rcases findBestAux_spec sq cur ps (some (p, distTo sq cur p)) with
            ⟨heq, hall⟩ | ⟨m, l1, l2, hsplit, heq, hg, hb, hmin, hstrict⟩
          · refine Or.inr ⟨p, [], ps, rfl, by rw [hstep, heq], hgate, hbeat,
              ?_, by simp⟩
            intro e he
            rcases List.mem_cons.mp he with rfl | he
            · exact le_refl _
            · by_contra hlt
              push_neg at hlt
              exact hall e he ⟨lt_trans hlt hgate, hlt⟩
          · have hmp : distTo sq cur m < distTo sq cur p := hb
            refine Or.inr ⟨m, p :: l1, l2, by rw [hsplit, List.cons_append], by rw [hstep, heq],
              hg, ?_, ?_, ?_⟩
            · cases hacc : acc with
              | none => trivial
              | some bd =>
                  have hbeat2 : distTo sq cur p < bd.2 := by
                    rw [hacc] at hbeat; exact hbeat
                  exact lt_trans hmp hbeat2
            · intro e he
              rcases List.mem_cons.mp he with rfl | he
              · exact le_of_lt hmp
              · exact hmin e he
            · intro e he
              rcases List.mem_cons.mp he with rfl | he
              · exact hmp
              · exact hstrict e he
        · have hstep := findBestAux_cons_neg sq cur p ps acc
            (fun hc => hbeat hc.2)
          rcases findBestAux_spec sq cur ps acc with
            ⟨heq, hall⟩ | ⟨m, l1, l2, hsplit, heq, hg, hb, hmin, hstrict⟩
          · refine Or.inl ⟨by rw [hstep, heq], ?_⟩
            intro e he
            rcases List.mem_cons.mp he with rfl | he
            · exact fun hc => hbeat hc.2
            · exact hall e he
          · have hmp : distTo sq cur m < distTo sq cur p := by
              cases hacc : acc with
              | none => exact absurd trivial (by rw [hacc] at hbeat; exact hbeat)
              | some bd =>
                  have hmb : distTo sq cur m < bd.2 := by
                    rw [hacc] at hb; exact hb
                  have hpb : ¬ distTo sq cur p < bd.2 := by
                    rw [hacc] at hbeat; exact hbeat
                  exact lt_of_lt_of_le hmb (not_lt.mp hpb)
            refine Or.inr ⟨m, p :: l1, l2, by rw [hsplit, List.cons_append], by rw [hstep, heq],
              hg, hb, ?_, ?_⟩
            · intro e he
              rcases List.mem_cons.mp he with rfl | he
              · exact le_of_lt hmp
              · exact hmin e he
            · intro e he
              rcases List.mem_cons.mp he with rfl | he
              · exact hmp
              · exact hstrict e he
      · have hstep := findBestAux_cons_neg sq cur p ps acc
          (fun hc => hgate hc.1)
        rcases findBestAux_spec sq cur ps acc with
          ⟨heq, hall⟩ | ⟨m, l1, l2, hsplit, heq, hg, hb, hmin, hstrict⟩
        · refine Or.inl ⟨by rw [hstep, heq], ?_⟩
          intro e he
          rcases List.mem_cons.mp he with rfl | he
          · exact fun hc => hgate hc.1
          · exact hall e he
        · have hmp : distTo sq cur m < distTo sq cur p :=
            lt_of_lt_of_le hg (not_lt.mp hgate)
          refine Or.inr ⟨m, p :: l1, l2, by rw [hsplit, List.cons_append], by rw [hstep, heq],
            hg, hb, ?_, ?_⟩
          · intro e he
            rcases List.mem_cons.mp he with rfl | he
            · exact le_of_lt hmp
            · exact hmin e he
          · intro e he
            rcases List.mem_cons.mp he with rfl | he
            · exact hmp
            · exact hstrict e he

/-- C5 (amended): whenever `_update_tracked_objects`'s candidate loop
matches a track (current position `cur`) to a detection `m`, the
euclidean centre distance (the only term - there is no size term) is
strictly below the fixed gate `0.1`, `m` minimises that distance over
the whole pool, and every pool element strictly before `m` is strictly
farther, so the lowest index wins ties; the matched detection is then
erased from the pool (see `associateAll`), making the assignment
one-to-one. -/
theorem C5_greedy_match_characterisation (sq : ℚ → ℚ)
    (cur : ObjectPosition) (pool : List ObjectPosition) (m : ObjectPosition)
    (h : find_best_match sq cur pool = some m) :
    distTo sq cur m < 1/10 ∧
    ∃ l1 l2, pool = l1 ++ m :: l2 ∧
      (∀ e ∈ pool, distTo sq cur m ≤ distTo sq cur e) ∧
      (∀ e ∈ l1, distTo sq cur m < distTo sq cur e) := by
  rcases findBestAux_spec sq cur pool none with
    ⟨heq, -⟩ | ⟨m2, l1, l2, hsplit, heq, hg, -, hmin, hstrict⟩
  · rw [find_best_match, heq] at h
    simp at h
  · rw [find_best_match, heq] at h
    simp at h
    subst h
    exact ⟨hg, l1, l2, hsplit, hmin, hstrict⟩

/-- Witness for the amended C5: a pool of two gate-passing detections in
which the second is closer; the matcher picks it and the characterised
gate bound holds. -/
theorem C5_greedy_match_characterisation_witness :
    find_best_match ratSqrt curC5
        [detC5, { detC5 with cx := 1/2 + 3/100, cy := 1/2 + 4/100 }] =
      some { detC5 with cx := 1/2 + 3/100, cy := 1/2 + 4/100 } ∧
    distTo ratSqrt curC5 { detC5 with cx := 1/2 + 3/100, cy := 1/2 + 4/100 } <
      1/10 :=
  ⟨by decide,
   (C5_greedy_match_characterisation ratSqrt curC5
      [detC5, { detC5 with cx := 1/2 + 3/100, cy := 1/2 + 4/100 }]
      { detC5 with cx := 1/2 + 3/100, cy := 1/2 + 4/100 } (by decide)).1⟩

/-! ### C3 (amended theorem) -/

/-- The claimed spacing, restricted to callbacks fired from
`_switch_target`: any earlier/later pair of such events in the fired
event list is at least `I` apart. -/
def switchSpaced (I : ℚ) (l : List EventEntry) : Prop :=
  l.Pairwise fun a b =>
    a.fromSwitch = true → b.fromSwitch = true → a.time + I ≤ b.time

lemma switchSpaced_of_no_switch {I : ℚ} {l : List EventEntry}
    (h : ∀ e ∈ l, e.fromSwitch = false) : switchSpaced I l := by
  induction l with
  | nil => exact List.Pairwise.nil
  | cons a l ih =>
      refine List.Pairwise.cons ?_ (ih fun e he => h e (List.mem_cons_of_mem a he))
      intro b hb hab
      rw [h a (List.mem_cons_self a l)] at hab
      cases hab

lemma select_new_target_last_switch (s : TrackerState) (now : ℚ) :
    (select_new_target s now).1.last_switch_time = s.last_switch_time := by
  unfold select_new_target
  split
  · rfl
  · split <;> rfl

lemma select_new_target_events (s : TrackerState) (now : ℚ) :
    ∀ e ∈ (select_new_target s now).2, e.fromSwitch = false := by
  unfold select_new_target
  split
  · intro e he; cases he
  · split
    · intro e he
      rcases List.mem_singleton.mp he with rfl
      rfl
    · intro e he; cases he

lemma switch_target_last_switch (cfg : MultiObjectConfig) (s : TrackerState)
    (now : ℚ) (hI : 0 ≤ cfg.min_switch_interval) :
    s.last_switch_time ≤ (switch_target cfg s now).1.last_switch_time := by
  unfold switch_target
  by_cases hdb : now - s.last_switch_time < cfg.min_switch_interval
  · rw [if_pos hdb]
  · rw [if_neg hdb]
    have hnow : s.last_switch_time ≤ now := by linarith [not_lt.mp hdb]
    exact hnow

lemma switch_target_events (cfg : MultiObjectConfig) (s : TrackerState)
    (now : ℚ) :
    ∀ e ∈ (switch_target cfg s now).2,
      e.fromSwitch = true ∧ e.time = now ∧
      cfg.min_switch_interval ≤ now - s.last_switch_time ∧
      (switch_target cfg s now).1.last_switch_time = now := by
  unfold switch_target
  by_cases hdb : now - s.last_switch_time < cfg.min_switch_interval
  · rw [if_pos hdb]
    intro e he; cases he
  · rw [if_neg hdb]
    have hle := not_lt.mp hdb
    dsimp only
    repeat' split
    all_goals intro e he
    all_goals cases he
    all_goals
      first
        | exact ⟨rfl, rfl, hle, rfl⟩
        | (rename_i h2; cases h2)

lemma switch_target_spaced (cfg : MultiObjectConfig) (s : TrackerState)
    (now : ℚ) {I : ℚ} :
    switchSpaced I (switch_target cfg s now).2 := by
  unfold switch_target
  by_cases hdb : now - s.last_switch_time < cfg.min_switch_interval
  · rw [if_pos hdb]; exact List.Pairwise.nil
  · rw [if_neg hdb]
    dsimp only
    repeat' split
    all_goals
      first
        | exact List.pairwise_singleton _ _
        | exact List.Pairwise.nil

lemma associateAll_events (sq : ℚ → ℚ) (now : ℚ) :
    ∀ (objs : List TrackedObject) (pool : List ObjectPosition),
      ∀ e ∈ (associateAll sq now objs pool).2.2, e.fromSwitch = false
  | [], pool => by intro e he; cases he
  | obj :: objs, pool => by
      have ih := associateAll_events sq now objs
      unfold associateAll
      split
      · exact ih pool
      · split
        · exact ih pool
        · intro e he
          rcases List.mem_cons.mp he with rfl | he2
          · rfl
          · exact ih _ e he2

lemma createNew_events (sq : ℚ → ℚ) (cfg : MultiObjectConfig) (now : ℚ) :
    ∀ (pool : List ObjectPosition) (objs : List TrackedObject) (next_id : ℕ),
      ∀ e ∈ (createNew sq cfg now objs pool next_id).2.2, e.fromSwitch = false
  | [], objs, next_id => by intro e he; cases he
  | pos :: rest, objs, next_id => by
      have ih := createNew_events sq cfg now rest
      unfold createNew
      split
      · intro e he
        rcases List.mem_cons.mp he with rfl | he2
        · rfl
        · exact ih _ _ e he2
      · exact ih _ _

lemma update_tracked_objects_last_switch (sq : ℚ → ℚ)
    (cfg : MultiObjectConfig) (s : TrackerState)
    (new_positions : List ObjectPosition) (now : ℚ) :
    (update_tracked_objects sq cfg s new_positions now).1.last_switch_time =
      s.last_switch_time := rfl

lemma update_tracked_objects_events (sq : ℚ → ℚ) (cfg : MultiObjectConfig)
    (s : TrackerState) (new_positions : List ObjectPosition) (now : ℚ) :
    ∀ e ∈ (update_tracked_objects sq cfg s new_positions now).2,
      e.fromSwitch = false := by
  intro e he
  rcases List.mem_append.mp he with h | h
  · exact associateAll_events sq now _ _ e h
  · exact createNew_events sq cfg now _ _ _ e h

lemma processLost_last_switch (now : ℚ) :
    ∀ (ids : List ℕ) (s : TrackerState),
      (processLost s now ids).1.last_switch_time = s.last_switch_time
  | [], s => rfl
  | oid :: rest, s => by
      have ih := processLost_last_switch now rest
      unfold processLost
      dsimp only
      rw [ih]
      split
      · rw [select_new_target_last_switch]
      · rfl

lemma processLost_events (now : ℚ) :
    ∀ (ids : List ℕ) (s : TrackerState),
      ∀ e ∈ (processLost s now ids).2, e.fromSwitch = false
  | [], s => by intro e he; cases he
  | oid :: rest, s => by
      have ih := processLost_events now rest
      unfold processLost
      intro e he
      rcases List.mem_cons.mp he with rfl | he2
      · rfl
      · rcases List.mem_append.mp he2 with h | h
        · revert h
          dsimp only
          split
          · exact fun h => select_new_target_events _ now e h
          · intro h; cases h
        · exact ih _ e h

lemma update_detections_last_switch (sq : ℚ → ℚ) (cfg : MultiObjectConfig)
    (s : TrackerState) (now : ℚ) (dets : List Detection) :
    (update_detections sq cfg s now dets).1.last_switch_time =
      s.last_switch_time := by
  unfold update_detections handle_lost_objects
  dsimp only
  rw [processLost_last_switch, update_tracked_objects_last_switch]

lemma update_detections_events (sq : ℚ → ℚ) (cfg : MultiObjectConfig)
    (s : TrackerState) (now : ℚ) (dets : List Detection) :
    ∀ e ∈ (update_detections sq cfg s now dets).2, e.fromSwitch = false := by
  unfold update_detections handle_lost_objects
  intro e he
  rcases List.mem_append.mp he with h | h
  · exact update_tracked_objects_events sq cfg _ _ now e h
  · exact processLost_events now _ _ e h

lemma execute_tracking_last_switch (sq : ℚ → ℚ) (cfg : MultiObjectConfig)
    (s : TrackerState) (now : ℚ) :
    (execute_tracking sq cfg s now).1.last_switch_time = s.last_switch_time := by
  unfold execute_tracking
  dsimp only
  repeat' split
  all_goals rfl

lemma execute_tracking_events (sq : ℚ → ℚ) (cfg : MultiObjectConfig)
    (s : TrackerState) (now : ℚ) :
    (execute_tracking sq cfg s now).2 = [] := by
  unfold execute_tracking
  dsimp only
  repeat' split
  all_goals rfl

lemma update_auto_zoom_last_switch (cfg : MultiObjectConfig)
    (s : TrackerState) (now : ℚ) :
    (update_auto_zoom cfg s now).1.last_switch_time = s.last_switch_time := by
  unfold update_auto_zoom
  dsimp only
  repeat' split
  all_goals rfl

lemma update_auto_zoom_events (cfg : MultiObjectConfig) (s : TrackerState)
    (now : ℚ) :
    ∀ e ∈ (update_auto_zoom cfg s now).2, e.fromSwitch = false := by
  unfold update_auto_zoom
  dsimp only
  repeat' split
  all_goals intro e he
  all_goals cases he
  all_goals
    first
      | rfl
      | (rename_i h2; cases h2)

lemma check_target_switching_last_switch (cfg : MultiObjectConfig)
    (s : TrackerState) (now : ℚ) (hI : 0 ≤ cfg.min_switch_interval) :
    s.last_switch_time ≤
      (check_target_switching cfg s now).1.last_switch_time := by
  unfold check_target_switching
  dsimp only
  repeat' split
  all_goals
    first
      | exact le_refl _
      | exact le_of_eq (select_new_target_last_switch s now).symm
      | exact switch_target_last_switch cfg s now hI

lemma check_target_switching_spaced (cfg : MultiObjectConfig)
    (s : TrackerState) (now : ℚ) :
    switchSpaced cfg.min_switch_interval
      (check_target_switching cfg s now).2 := by
  unfold check_target_switching
  dsimp only
  repeat' split
  all_goals
    first
      | exact List.Pairwise.nil
      | exact switchSpaced_of_no_switch (select_new_target_events s now)
      | exact switch_target_spaced cfg s now

lemma check_target_switching_switch_events (cfg : MultiObjectConfig)
    (s : TrackerState) (now : ℚ) :
    ∀ e ∈ (check_target_switching cfg s now).2, e.fromSwitch = true →
      s.last_switch_time + cfg.min_switch_interval ≤ e.time ∧
      e.time ≤ (check_target_switching cfg s now).1.last_switch_time := by
  unfold check_target_switching
  dsimp only
  repeat' split
  all_goals intro e he
  all_goals
    first
      | cases he
      | (intro htrue
         rw [select_new_target_events s now e he] at htrue
         cases htrue)
      | (intro htrue
         rcases switch_target_events cfg s now e he with ⟨-, ht, hint, hfin⟩
         exact ⟨by rw [ht]; linarith, by rw [ht, hfin]⟩)

lemma applyOp_last_switch (sq : ℚ → ℚ) (cfg : MultiObjectConfig)
    (s : TrackerState) (now : ℚ) (op : Op)
    (hI : 0 ≤ cfg.min_switch_interval) :
    s.last_switch_time ≤ (applyOp sq cfg s now op).1.last_switch_time := by
  cases op with
  | update dets => exact le_of_eq (update_detections_last_switch sq cfg s now dets).symm
  | check => exact check_target_switching_last_switch cfg s now hI
  | prioritize => exact le_refl _
  | track => exact le_of_eq (execute_tracking_last_switch sq cfg s now).symm
  | zoom =>
      simp only [applyOp]
      split
      · exact le_of_eq (update_auto_zoom_last_switch cfg s now).symm
      · exact le_refl _

lemma applyOp_spaced (sq : ℚ → ℚ) (cfg : MultiObjectConfig)
    (s : TrackerState) (now : ℚ) (op : Op) :
    switchSpaced cfg.min_switch_interval (applyOp sq cfg s now op).2 := by
  cases op with
  | update dets =>
      exact switchSpaced_of_no_switch (update_detections_events sq cfg s now dets)
  | check => exact check_target_switching_spaced cfg s now
  | prioritize => exact List.Pairwise.nil
  | track =>
      simp only [applyOp]
      rw [execute_tracking_events]
      exact List.Pairwise.nil
  | zoom =>
      simp only [applyOp]
      split
      · exact switchSpaced_of_no_switch (update_auto_zoom_events cfg s now)
      · exact List.Pairwise.nil

lemma applyOp_switch_events (sq : ℚ → ℚ) (cfg : MultiObjectConfig)
    (s : TrackerState) (now : ℚ) (op : Op) :
    ∀ e ∈ (applyOp sq cfg s now op).2, e.fromSwitch = true →
      s.last_switch_time + cfg.min_switch_interval ≤ e.time ∧
      e.time ≤ (applyOp sq cfg s now op).1.last_switch_time := by
  cases op with
  | update dets =>
      intro e he htrue
      rw [update_detections_events sq cfg s now dets e he] at htrue
      cases htrue
  | check => exact check_target_switching_switch_events cfg s now
  | prioritize => intro e he; cases he
  | track =>
      simp only [applyOp]
      rw [execute_tracking_events]
      intro e he; cases he
  | zoom =>
      simp only [applyOp]
      split
      · intro e he htrue
        rw [update_auto_zoom_events cfg s now e he] at htrue
        cases htrue
      · intro e he; cases he

lemma runOps_last_switch (sq : ℚ → ℚ) (cfg : MultiObjectConfig)
    (hI : 0 ≤ cfg.min_switch_interval) :
    ∀ (ops : List (ℚ × Op)) (s : TrackerState),
      s.last_switch_time ≤ (runOps sq cfg s ops).1.last_switch_time
  | [], _ => le_refl _
  | (now, op) :: rest, s =>
      le_trans (applyOp_last_switch sq cfg s now op hI)
        (runOps_last_switch sq cfg hI rest (applyOp sq cfg s now op).1)

lemma runOps_switch_events (sq : ℚ → ℚ) (cfg : MultiObjectConfig)
    (hI : 0 ≤ cfg.min_switch_interval) :
    ∀ (ops : List (ℚ × Op)) (s : TrackerState),
      ∀ e ∈ (runOps sq cfg s ops).2, e.fromSwitch = true →
        s.last_switch_time + cfg.min_switch_interval ≤ e.time ∧
        e.time ≤ (runOps sq cfg s ops).1.last_switch_time
  | [], s => by intro e he; cases he
  | (now, op) :: rest, s => by
      intro e he htrue
      rcases List.mem_append.mp he with h | h
      · rcases applyOp_switch_events sq cfg s now op e h htrue with ⟨h1, h2⟩
        exact ⟨h1, le_trans h2 (runOps_last_switch sq cfg hI rest _)⟩
      · rcases runOps_switch_events sq cfg hI rest _ e h htrue with ⟨h1, h2⟩
        refine ⟨le_trans ?_ h1, h2⟩
        have := applyOp_last_switch sq cfg s now op hI
        linarith

/-- C3 (amended): along every operation sequence of the engine, any two
`target_switched` events both fired from inside `_switch_target` are at
least `min_switch_interval` apart; `C3_select_breaks_min_interval` shows
the restriction to `_switch_target` is necessary, because
`_select_new_target` fires the same callback with no interval check. -/
theorem C3_switch_target_min_interval (sq : ℚ → ℚ)
    (cfg : MultiObjectConfig) (s : TrackerState) (ops : List (ℚ × Op))
    (hI : 0 ≤ cfg.min_switch_interval) :
    switchSpaced cfg.min_switch_interval (runOps sq cfg s ops).2 := by
  induction ops generalizing s with
  | nil => exact List.Pairwise.nil
  | cons hd rest ih =>
      rcases hd with ⟨now, op⟩
      show switchSpaced cfg.min_switch_interval
        ((applyOp sq cfg s now op).2 ++
          (runOps sq cfg (applyOp sq cfg s now op).1 rest).2)
      rw [switchSpaced, List.pairwise_append]
      refine ⟨applyOp_spaced sq cfg s now op, ih _, ?_⟩
      intro a ha b hb hat hbt
      rcases applyOp_switch_events sq cfg s now op a ha hat with ⟨-, h2⟩
      rcases runOps_switch_events sq cfg hI rest _ b hb hbt with ⟨h3, -⟩
      linarith

/-- The run used to witness C3: two tracks, an initial selection, a
forced alternation at `t = 5` and the swap back at `t = 8` — both
`_switch_target` events, `3 ≥ min_switch_interval` apart. -/
def traceW : List (ℚ × Op) :=
  [(0, .update [detA0, detB0]), (0, .prioritize), (0, .check),
   (5, .check), (11/2, .update [detA0, detB0]), (8, .check)]

set_option maxRecDepth 100000 in
/-- Witness for the amended C3: in the run `traceW` the events at
indices 3 and 6 are the two `_switch_target` switches (t = 5 and t = 8),
and the theorem yields `5 + min_switch_interval ≤ 8`. -/
theorem C3_switch_target_min_interval_witness :
    0 ≤ maritime_standard.min_switch_interval ∧
    ((runOps ratSqrt maritime_standard initState traceW).2.get
        ⟨3, by decide⟩).time + maritime_standard.min_switch_interval ≤
      ((runOps ratSqrt maritime_standard initState traceW).2.get
        ⟨6, by decide⟩).time := by
  refine ⟨by decide, ?_⟩
  have h := C3_switch_target_min_interval ratSqrt maritime_standard initState
    traceW (by decide)
  have h2 := (List.pairwise_iff_get.mp h) ⟨3, by decide⟩ ⟨6, by decide⟩
    (by decide)
  exact h2 (by decide) (by decide)

/-! ### C6 -/

/-- The zoom-related fields of the tracker state. -/
def zoomFields (s : TrackerState) : ℚ × ℚ × List ZoomRecord :=
  (s.current_zoom_level, s.target_zoom_level, s.zoom_history)

/-- The zoom bound invariant: current level, set-point, and every value
ever handed to `_send_zoom_command` (the `new_zoom` entries of
`zoom_history`) lie within `[min_zoom_level, max_zoom_level]`. -/
def zoomInv (cfg : MultiObjectConfig) (s : TrackerState) : Prop :=
  cfg.min_zoom_level ≤ s.current_zoom_level ∧
  s.current_zoom_level ≤ cfg.max_zoom_level ∧
  cfg.min_zoom_level ≤ s.target_zoom_level ∧
  s.target_zoom_level ≤ cfg.max_zoom_level ∧
  ∀ r ∈ s.zoom_history,
    cfg.min_zoom_level ≤ r.new_zoom ∧ r.new_zoom ≤ cfg.max_zoom_level

lemma zoomInv_of_zoomFields_eq {cfg : MultiObjectConfig}
    {s s2 : TrackerState} (h : zoomFields s2 = zoomFields s)
    (hinv : zoomInv cfg s) : zoomInv cfg s2 := by
  have h1 : s2.current_zoom_level = s.current_zoom_level :=
    congrArg Prod.fst h
  have h2 : s2.target_zoom_level = s.target_zoom_level :=
    congrArg (fun p => p.2.1) h
  have h3 : s2.zoom_history = s.zoom_history :=
    congrArg (fun p => p.2.2) h
  unfold zoomInv at hinv ⊢
  rw [h1, h2, h3]
  exact hinv

lemma select_new_target_zoom (s : TrackerState) (now : ℚ) :
    zoomFields (select_new_target s now).1 = zoomFields s := by
  unfold select_new_target
  split
  · rfl
  · split <;> rfl

lemma switch_target_zoom (cfg : MultiObjectConfig) (s : TrackerState)
    (now : ℚ) :
    zoomFields (switch_target cfg s now).1 = zoomFields s := by
  unfold switch_target
  by_cases hdb : now - s.last_switch_time < cfg.min_switch_interval
  · rw [if_pos hdb]
  · rw [if_neg hdb]
    dsimp only
    repeat' split
    all_goals rfl

lemma check_target_switching_zoom (cfg : MultiObjectConfig)
    (s : TrackerState) (now : ℚ) :
    zoomFields (check_target_switching cfg s now).1 = zoomFields s := by
  unfold check_target_switching
  dsimp only
  repeat' split
  all_goals
    first
      | rfl
      | exact select_new_target_zoom s now
      | exact switch_target_zoom cfg s now

lemma update_tracked_objects_zoom (sq : ℚ → ℚ) (cfg : MultiObjectConfig)
    (s : TrackerState) (new_positions : List ObjectPosition) (now : ℚ) :
    zoomFields (update_tracked_objects sq cfg s new_positions now).1 =
      zoomFields s := rfl

lemma processLost_zoom (now : ℚ) :
    ∀ (ids : List ℕ) (s : TrackerState),
      zoomFields (processLost s now ids).1 = zoomFields s
  | [], s => rfl
  | oid :: rest, s => by
      have ih := processLost_zoom now rest
      unfold processLost
      dsimp only
      rw [ih]
      split
      · rw [select_new_target_zoom]; rfl
      · rfl

lemma update_detections_zoom (sq : ℚ → ℚ) (cfg : MultiObjectConfig)
    (s : TrackerState) (now : ℚ) (dets : List Detection) :
    zoomFields (update_detections sq cfg s now dets).1 = zoomFields s := by
  unfold update_detections handle_lost_objects
  dsimp only
  rw [processLost_zoom, update_tracked_objects_zoom]
  rfl

lemma execute_tracking_zoom (sq : ℚ → ℚ) (cfg : MultiObjectConfig)
    (s : TrackerState) (now : ℚ) :
    zoomFields (execute_tracking sq cfg s now).1 = zoomFields s := by
  unfold execute_tracking
  dsimp only
  repeat' split
  all_goals rfl

lemma zoom_step_bounds {mn mx c t sp : ℚ} (h1 : mn ≤ c) (h2 : c ≤ mx)
    (h3 : mn ≤ t) (h4 : t ≤ mx) (h5 : 0 < sp) (h6 : sp ≤ 1) :
    mn ≤ c + (t - c) * sp ∧ c + (t - c) * sp ≤ mx := by
  constructor
  · nlinarith [mul_nonneg (sub_nonneg.mpr h1) (sub_nonneg.mpr h6),
      mul_nonneg (sub_nonneg.mpr h3) (le_of_lt h5)]
  · nlinarith [mul_nonneg (sub_nonneg.mpr h2) (sub_nonneg.mpr h6),
      mul_nonneg (sub_nonneg.mpr h4) (le_of_lt h5)]

lemma update_auto_zoom_zoomInv (cfg : MultiObjectConfig) (s : TrackerState)
    (now : ℚ) (hzs0 : 0 < cfg.zoom_speed) (hzs1 : cfg.zoom_speed ≤ 1)
    (hmm : cfg.min_zoom_level ≤ cfg.max_zoom_level) (hinv : zoomInv cfg s) :
    zoomInv cfg (update_auto_zoom cfg s now).1 := by
  obtain ⟨hc1, hc2, ht1, ht2, hh⟩ := hinv
  have hA1 : cfg.min_zoom_level ≤
      min (s.target_zoom_level + 1/10) cfg.max_zoom_level :=
    le_min (by linarith) hmm
  have hA2 : min (s.target_zoom_level + 1/10) cfg.max_zoom_level ≤
      cfg.max_zoom_level := min_le_right _ _
  have hB1 : cfg.min_zoom_level ≤
      max (s.target_zoom_level - 1/10) cfg.min_zoom_level :=
    le_max_right _ _
  have hB2 : max (s.target_zoom_level - 1/10) cfg.min_zoom_level ≤
      cfg.max_zoom_level := max_le (by linarith) hmm
  have hhist : ∀ (z : ℚ) (tid : ℕ) (ratio : ℚ),
      cfg.min_zoom_level ≤ z → z ≤ cfg.max_zoom_level →
      ∀ r ∈ s.zoom_history ++
        [ZoomRecord.mk now s.current_zoom_level z tid ratio],
        cfg.min_zoom_level ≤ r.new_zoom ∧ r.new_zoom ≤ cfg.max_zoom_level := by
    intro z tid ratio hz1 hz2 r hr
    rcases List.mem_append.mp hr with h | h
    · exact hh r h
    · rcases List.mem_singleton.mp h with rfl
      exact ⟨hz1, hz2⟩
  unfold update_auto_zoom
  dsimp only
  repeat' split
  · exact ⟨hc1, hc2, ht1, ht2, hh⟩
  · exact ⟨hc1, hc2, ht1, ht2, hh⟩
  · exact ⟨hc1, hc2, ht1, ht2, hh⟩
  · have hstep := zoom_step_bounds hc1 hc2 hA1 hA2 hzs0 hzs1
    exact ⟨hstep.1, hstep.2, hA1, hA2, hhist _ _ _ hstep.1 hstep.2⟩
  · exact ⟨hc1, hc2, hA1, hA2, hh⟩
  · have hstep := zoom_step_bounds hc1 hc2 hB1 hB2 hzs0 hzs1
    exact ⟨hstep.1, hstep.2, hB1, hB2, hhist _ _ _ hstep.1 hstep.2⟩
  · exact ⟨hc1, hc2, hB1, hB2, hh⟩
  · have hstep := zoom_step_bounds hc1 hc2 ht1 ht2 hzs0 hzs1
    exact ⟨hstep.1, hstep.2, ht1, ht2, hhist _ _ _ hstep.1 hstep.2⟩
  · exact ⟨hc1, hc2, ht1, ht2, hh⟩

lemma applyOp_zoomInv (sq : ℚ → ℚ) (cfg : MultiObjectConfig)
    (s : TrackerState) (now : ℚ) (op : Op) (hzs0 : 0 < cfg.zoom_speed)
    (hzs1 : cfg.zoom_speed ≤ 1)
    (hmm : cfg.min_zoom_level ≤ cfg.max_zoom_level)
    (hinv : zoomInv cfg s) : zoomInv cfg (applyOp sq cfg s now op).1 := by
  cases op with
  | update dets =>
      exact zoomInv_of_zoomFields_eq
        (update_detections_zoom sq cfg s now dets) hinv
  | check =>
      exact zoomInv_of_zoomFields_eq
        (check_target_switching_zoom cfg s now) hinv
  | prioritize => exact zoomInv_of_zoomFields_eq rfl hinv
  | track =>
      exact zoomInv_of_zoomFields_eq (execute_tracking_zoom sq cfg s now) hinv
  | zoom =>
      simp only [applyOp]
      split
      · exact update_auto_zoom_zoomInv cfg s now hzs0 hzs1 hmm hinv
      · exact hinv

lemma runOps_preserves (sq : ℚ → ℚ) (cfg : MultiObjectConfig)
    (Inv : TrackerState → Prop)
    (hstep : ∀ s now op, Inv s → Inv (applyOp sq cfg s now op).1) :
    ∀ (ops : List (ℚ × Op)) (s : TrackerState),
      Inv s → Inv (runOps sq cfg s ops).1
  | [], _, h => h
  | (now, op) :: rest, s, h =>
      runOps_preserves sq cfg Inv hstep rest _ (hstep s now op h)

/-- C6: with `zoom_speed` in `(0, 1]` and clamp bounds straddling the
initial level `0.5`, every zoom value handed to `_send_zoom_command`
(the `new_zoom` entries of `zoom_history`) and the current zoom level
after every operation sequence stay within
`[min_zoom_level, max_zoom_level]`. -/
theorem C6_zoom_within_bounds (sq : ℚ → ℚ) (cfg : MultiObjectConfig)
    (ops : List (ℚ × Op)) (hzs0 : 0 < cfg.zoom_speed)
    (hzs1 : cfg.zoom_speed ≤ 1) (hmn : cfg.min_zoom_level ≤ 1/2)
    (hmx : 1/2 ≤ cfg.max_zoom_level) :
    (cfg.min_zoom_level ≤ (runOps sq cfg initState ops).1.current_zoom_level ∧
      (runOps sq cfg initState ops).1.current_zoom_level ≤
        cfg.max_zoom_level) ∧
    ∀ r ∈ (runOps sq cfg initState ops).1.zoom_history,
      cfg.min_zoom_level ≤ r.new_zoom ∧ r.new_zoom ≤ cfg.max_zoom_level := by
  have hinv : zoomInv cfg (runOps sq cfg initState ops).1 :=
    runOps_preserves sq cfg (zoomInv cfg)
      (fun s now op h =>
        applyOp_zoomInv sq cfg s now op hzs0 hzs1 (le_trans hmn hmx) h)
      ops initState
      ⟨hmn, hmx, hmn, hmx, by intro r hr; cases hr⟩
  exact ⟨⟨hinv.1, hinv.2.1⟩, hinv.2.2.2.2⟩

/-- The run used to witness C6: create a track, select it, and take one
auto-zoom step (the object is far below the target ratio, so the level
moves from `0.5` to `0.53`). -/
def traceZ : List (ℚ × Op) :=
  [(0, .update [detA0]), (0, .prioritize), (0, .check), (0, .zoom)]

/-- Witness for C6 at the default configuration along `traceZ`. -/
theorem C6_zoom_within_bounds_witness :
    (0 < maritime_standard.zoom_speed ∧ maritime_standard.zoom_speed ≤ 1 ∧
      maritime_standard.min_zoom_level ≤ 1/2 ∧
      1/2 ≤ maritime_standard.max_zoom_level) ∧
    (maritime_standard.min_zoom_level ≤
        (runOps ratSqrt maritime_standard initState traceZ).1.current_zoom_level ∧
      (runOps ratSqrt maritime_standard initState traceZ).1.current_zoom_level ≤
        maritime_standard.max_zoom_level) :=
  ⟨⟨by decide, by decide, by decide, by decide⟩,
   (C6_zoom_within_bounds ratSqrt maritime_standard traceZ (by decide)
      (by decide) (by decide) (by decide)).1⟩

/-! ### C7 -/

/-- The identity-and-role signature of a tracked object. -/
def idFlag (o : TrackedObject) : ℕ × Bool := (o.id, o.is_primary_target)

lemma update_movement_analysis_idFlag (sq : ℚ → ℚ) (o : TrackedObject) :
    idFlag (o.update_movement_analysis sq) = idFlag o := by
  unfold TrackedObject.update_movement_analysis
  dsimp only
  repeat' split
  all_goals rfl

lemma update_size_analysis_idFlag (o : TrackedObject) :
    idFlag o.update_size_analysis = idFlag o := by
  unfold TrackedObject.update_size_analysis
  dsimp only
  repeat' split
  all_goals rfl

lemma update_tracking_stats_idFlag (o : TrackedObject) (now : ℚ) :
    idFlag (o.update_tracking_stats now) = idFlag o := by
  unfold TrackedObject.update_tracking_stats
  dsimp only
  repeat' split
  all_goals rfl

lemma add_position_idFlag (sq : ℚ → ℚ) (o : TrackedObject)
    (p : ObjectPosition) (now : ℚ) :
    idFlag (o.add_position sq p now) = idFlag o := by
  unfold TrackedObject.add_position
  dsimp only
  rw [update_tracking_stats_idFlag, update_size_analysis_idFlag,
    update_movement_analysis_idFlag]
  split
  all_goals rfl

lemma associateAll_idFlag (sq : ℚ → ℚ) (now : ℚ) :
    ∀ (objs : List TrackedObject) (pool : List ObjectPosition),
      (associateAll sq now objs pool).1.map idFlag = objs.map idFlag
  | [], _ => rfl
  | obj :: objs, pool => by
      have ih := associateAll_idFlag sq now objs
      unfold associateAll
      split
      · simp only [List.map_cons, ih]
      · split
        · simp only [List.map_cons, ih]
        · simp only [List.map_cons, ih, add_position_idFlag]

lemma map_id_of_idFlag_eq {l1 l2 : List TrackedObject}
    (h : l1.map idFlag = l2.map idFlag) :
    l1.map (·.id) = l2.map (·.id) := by
  have h2 := congrArg (List.map Prod.fst) h
  rw [List.map_map, List.map_map] at h2
  exact h2

lemma countP_flag_of_idFlag_eq {l1 l2 : List TrackedObject}
    (h : l1.map idFlag = l2.map idFlag) :
    l1.countP (·.is_primary_target) = l2.countP (·.is_primary_target) := by
  have h2 := congrArg (List.countP fun p => p.2) h
  rw [List.countP_map, List.countP_map] at h2
  exact h2

lemma map_id_map (f : TrackedObject → TrackedObject)
    (hf : ∀ o, (f o).id = o.id) :
    ∀ objs : List TrackedObject, (objs.map f).map (·.id) = objs.map (·.id)
  | [] => rfl
  | o :: objs => by
      simp only [List.map_cons, hf, map_id_map f hf objs]

lemma countP_map_flag (f : TrackedObject → TrackedObject)
    (g : TrackedObject → Bool)
    (hf : ∀ o, (f o).is_primary_target = g o) :
    ∀ objs : List TrackedObject,
      (objs.map f).countP (·.is_primary_target) = objs.countP g
  | [] => rfl
  | o :: objs => by
      simp only [List.map_cons, List.countP_cons, hf,
        countP_map_flag f g hf objs]

lemma countP_beq_le_one (objs : List TrackedObject) (tid : ℕ)
    (hnd : (objs.map (·.id)).Nodup) :
    objs.countP (fun o => o.id == tid) ≤ 1 := by
  have h := List.nodup_iff_count_le_one.mp hnd tid
  rw [List.count, List.countP_map] at h
  exact h

/-- The primary-uniqueness invariant: every live id is below the id
counter, live ids are pairwise distinct, and at most one live track
carries `is_primary_target`. -/
def primaryInv (s : TrackerState) : Prop :=
  (∀ i ∈ s.tracked_objects.map (·.id), i < s.next_object_id) ∧
  (s.tracked_objects.map (·.id)).Nodup ∧
  s.tracked_objects.countP (·.is_primary_target) ≤ 1

lemma countP_congr_fn (p q : TrackedObject → Bool) (hpq : ∀ o, p o = q o) :
    ∀ objs : List TrackedObject, objs.countP p = objs.countP q
  | [] => rfl
  | o :: objs => by
      simp only [List.countP_cons, hpq, countP_congr_fn p q hpq objs]

lemma countP_false_fn :
    ∀ objs : List TrackedObject, objs.countP (fun _ => false) = 0
  | [] => rfl
  | o :: objs => by
      simp [List.countP_cons, countP_false_fn objs]

lemma primaryInv_map (s : TrackerState) (f : TrackedObject → TrackedObject)
    (g : TrackedObject → Bool)
    (hid : ∀ o, (f o).id = o.id)
    (hflag : ∀ o, (f o).is_primary_target = g o)
    (hcount : (s.tracked_objects.map (·.id)).Nodup →
      s.tracked_objects.countP g ≤ 1)
    (h : primaryInv s) :
    primaryInv { s with tracked_objects := s.tracked_objects.map f } := by
  obtain ⟨hb, hnd, -⟩ := h
  refine ⟨?_, ?_, ?_⟩
  · dsimp only
    rw [map_id_map f hid]
    exact hb
  · dsimp only
    rw [map_id_map f hid]
    exact hnd
  · dsimp only
    rw [countP_map_flag f g hflag]
    exact hcount hnd

lemma select_new_target_primaryInv (s : TrackerState) (now : ℚ)
    (h : primaryInv s) : primaryInv (select_new_target s now).1 := by
  unfold select_new_target
  split
  · exact h
  · rename_i best _
    split
    · exact primaryInv_map s _ (fun o => o.id == best.id) (fun o => rfl)
        (fun o => rfl) (fun hnd => countP_beq_le_one _ _ hnd) h
    · exact h

lemma update_target_flags_primaryInv (s : TrackerState) (now : ℚ)
    (h : primaryInv s) : primaryInv (update_target_flags s now) := by
  unfold update_target_flags
  refine primaryInv_map s _ (fun o => some o.id == s.current_target_id)
    ?_ ?_ ?_ h
  · intro o
    dsimp only
    split <;> rfl
  · intro o
    dsimp only
    split <;> rfl
  · intro hnd
    cases hct : s.current_target_id with
    | none =>
        rw [countP_congr_fn (fun o => some o.id == none) (fun _ => false)
          (fun o => rfl)]
        rw [countP_false_fn]
        exact Nat.zero_le 1
    | some tid =>
        rw [countP_congr_fn (fun o => some o.id == some tid)
          (fun o => o.id == tid) (fun o => rfl)]
        exact countP_beq_le_one _ _ hnd

lemma switch_target_primaryInv (cfg : MultiObjectConfig) (s : TrackerState)
    (now : ℚ) (h : primaryInv s) :
    primaryInv (switch_target cfg s now).1 := by
  unfold switch_target
  by_cases hdb : now - s.last_switch_time < cfg.min_switch_interval
  · rw [if_pos hdb]; exact h
  · rw [if_neg hdb]
    dsimp only
    repeat' split
    all_goals
      first
        | exact h
        | exact update_target_flags_primaryInv _ now h

lemma check_target_switching_primaryInv (cfg : MultiObjectConfig)
    (s : TrackerState) (now : ℚ) (h : primaryInv s) :
    primaryInv (check_target_switching cfg s now).1 := by
  unfold check_target_switching
  dsimp only
  repeat' split
  all_goals
    first
      | exact h
      | exact select_new_target_primaryInv s now h
      | exact switch_target_primaryInv cfg s now h

lemma primaryInv_eraseP (s : TrackerState) (p : TrackedObject → Bool)
    (h : primaryInv s) :
    primaryInv { s with tracked_objects := s.tracked_objects.eraseP p } := by
  obtain ⟨hb, hnd, hc⟩ := h
  have hsub : List.Sublist (s.tracked_objects.eraseP p) s.tracked_objects :=
    List.eraseP_sublist _
  refine ⟨?_, ?_, ?_⟩
  · dsimp only
    intro i hi
    exact hb i ((hsub.map _).subset hi)
  · exact List.Nodup.sublist (hsub.map _) hnd
  · exact le_trans (hsub.countP_le _) hc

set_option maxHeartbeats 1000000 in
lemma processLost_primaryInv (now : ℚ) :
    ∀ (ids : List ℕ) (s : TrackerState),
      primaryInv s → primaryInv (processLost s now ids).1
  | [], _, h => h
  | oid :: rest, s, h => by
      have ih := processLost_primaryInv now rest
      unfold processLost
      dsimp only
      apply ih
      split
      · exact select_new_target_primaryInv _ now
          (primaryInv_eraseP s _ h)
      · exact primaryInv_eraseP s _ h

set_option maxHeartbeats 1000000 in
lemma createNew_primaryInv (sq : ℚ → ℚ) (cfg : MultiObjectConfig) (now : ℚ) :
    ∀ (pool : List ObjectPosition) (objs : List TrackedObject) (next_id : ℕ),
      (∀ i ∈ objs.map (·.id), i < next_id) →
      (objs.map (·.id)).Nodup →
      objs.countP (·.is_primary_target) ≤ 1 →
      (∀ i ∈ (createNew sq cfg now objs pool next_id).1.map (·.id),
          i < (createNew sq cfg now objs pool next_id).2.1) ∧
      ((createNew sq cfg now objs pool next_id).1.map (·.id)).Nodup ∧
      (createNew sq cfg now objs pool next_id).1.countP
        (·.is_primary_target) ≤ 1
  | [], objs, next_id => fun hb hnd hc => ⟨hb, hnd, hc⟩
  | pos :: rest, objs, next_id => by
      intro hb hnd hc
      have ihgen := createNew_primaryInv sq cfg now rest
      by_cases hlen : objs.length < cfg.max_objects_to_track
      · have hIF := add_position_idFlag sq (TrackedObject.new next_id now)
          pos now
        have hidnew :
            ((TrackedObject.new next_id now).add_position sq pos now).id =
              next_id := by
          have h1 := congrArg Prod.fst hIF
          simpa [idFlag, TrackedObject.new] using h1
        have hflagnew :
            ((TrackedObject.new next_id now).add_position sq pos
                now).is_primary_target = false := by
          have h1 := congrArg Prod.snd hIF
          simpa [idFlag, TrackedObject.new] using h1
        have hb2 : ∀ i ∈ (objs ++
            [(TrackedObject.new next_id now).add_position sq pos now]).map
              (·.id), i < next_id + 1 := by
          intro i hi
          rw [List.map_append] at hi
          rcases List.mem_append.mp hi with hi | hi
          · exact Nat.lt_succ_of_lt (hb i hi)
          · simp only [List.map_cons, List.map_nil, List.mem_singleton,
              hidnew] at hi
            omega
        have hnd2 : ((objs ++
            [(TrackedObject.new next_id now).add_position sq pos now]).map
              (·.id)).Nodup := by
          rw [List.map_append]
          refine List.Nodup.append hnd ?_ ?_
          · simp
          · intro i hi hj
            simp only [List.map_cons, List.map_nil, List.mem_singleton,
              hidnew] at hj
            subst hj
            exact absurd (hb _ hi) (lt_irrefl _)
        have hc2 : (objs ++
            [(TrackedObject.new next_id now).add_position sq pos
              now]).countP (·.is_primary_target) ≤ 1 := by
          rw [List.countP_append]
          have : ([(TrackedObject.new next_id now).add_position sq pos
              now]).countP (·.is_primary_target) = 0 := by
            simp [List.countP_cons, hflagnew]
          rw [this]
          simpa using hc
        have heq : createNew sq cfg now objs (pos :: rest) next_id =
            ((createNew sq cfg now (objs ++
                [(TrackedObject.new next_id now).add_position sq pos now])
                rest (next_id + 1)).1,
             (createNew sq cfg now (objs ++
                [(TrackedObject.new next_id now).add_position sq pos now])
                rest (next_id + 1)).2.1,
             ⟨now, .object_detected next_id, false⟩ ::
               (createNew sq cfg now (objs ++
                  [(TrackedObject.new next_id now).add_position sq pos now])
                  rest (next_id + 1)).2.2) := by
          conv_lhs => rw [createNew]
          rw [if_pos hlen]
        rw [heq]
        exact ihgen _ _ hb2 hnd2 hc2
      · have heq : createNew sq cfg now objs (pos :: rest) next_id =
            createNew sq cfg now objs rest next_id := by
          conv_lhs => rw [createNew]
          rw [if_neg hlen]
        rw [heq]
        exact ihgen _ _ hb hnd hc

lemma update_tracked_objects_primaryInv (sq : ℚ → ℚ)
    (cfg : MultiObjectConfig) (s : TrackerState)
    (new_positions : List ObjectPosition) (now : ℚ) (h : primaryInv s) :
    primaryInv (update_tracked_objects sq cfg s new_positions now).1 := by
  obtain ⟨hb, hnd, hc⟩ := h
  unfold update_tracked_objects
  dsimp only
  have hA := associateAll_idFlag sq now s.tracked_objects new_positions
  have hids := map_id_of_idFlag_eq hA
  have hcnt := countP_flag_of_idFlag_eq hA
  have h1 : ∀ i ∈ (associateAll sq now s.tracked_objects
      new_positions).1.map (·.id), i < s.next_object_id := by
    rw [hids]; exact hb
  have h2 : ((associateAll sq now s.tracked_objects
      new_positions).1.map (·.id)).Nodup := by
    rw [hids]; exact hnd
  have h3 : (associateAll sq now s.tracked_objects
      new_positions).1.countP (·.is_primary_target) ≤ 1 := by
    rw [hcnt]; exact hc
  exact createNew_primaryInv sq cfg now _ _ _ h1 h2 h3

lemma update_detections_primaryInv (sq : ℚ → ℚ) (cfg : MultiObjectConfig)
    (s : TrackerState) (now : ℚ) (dets : List Detection)
    (h : primaryInv s) :
    primaryInv (update_detections sq cfg s now dets).1 := by
  unfold update_detections handle_lost_objects
  dsimp only
  exact processLost_primaryInv now _ _
    (update_tracked_objects_primaryInv sq cfg _ _ now h)

/-- The track-store fields of the tracker state. -/
def objFields (s : TrackerState) : List TrackedObject × ℕ :=
  (s.tracked_objects, s.next_object_id)

lemma primaryInv_of_objFields_eq {s s2 : TrackerState}
    (hf : objFields s2 = objFields s) (h : primaryInv s) : primaryInv s2 := by
  have h1 : s2.tracked_objects = s.tracked_objects := congrArg Prod.fst hf
  have h2 : s2.next_object_id = s.next_object_id := congrArg Prod.snd hf
  unfold primaryInv at h ⊢
  rw [h1, h2]
  exact h

lemma execute_tracking_objFields (sq : ℚ → ℚ) (cfg : MultiObjectConfig)
    (s : TrackerState) (now : ℚ) :
    objFields (execute_tracking sq cfg s now).1 = objFields s := by
  unfold execute_tracking
  dsimp only
  repeat' split
  all_goals rfl

lemma update_auto_zoom_objFields (cfg : MultiObjectConfig)
    (s : TrackerState) (now : ℚ) :
    objFields (update_auto_zoom cfg s now).1 = objFields s := by
  unfold update_auto_zoom
  dsimp only
  repeat' split
  all_goals rfl

lemma applyOp_primaryInv (sq : ℚ → ℚ) (cfg : MultiObjectConfig)
    (s : TrackerState) (now : ℚ) (op : Op) (h : primaryInv s) :
    primaryInv (applyOp sq cfg s now op).1 := by
  cases op with
  | update dets => exact update_detections_primaryInv sq cfg s now dets h
  | check => exact check_target_switching_primaryInv cfg s now h
  | prioritize =>
      exact primaryInv_map s _ (·.is_primary_target) (fun o => rfl)
        (fun o => rfl) (fun _ => h.2.2) h
  | track =>
      exact primaryInv_of_objFields_eq
        (execute_tracking_objFields sq cfg s now) h
  | zoom =>
      simp only [applyOp]
      split
      · exact primaryInv_of_objFields_eq
          (update_auto_zoom_objFields cfg s now) h
      · exact h

/-- C7: starting from the freshly initialised tracker, after every
operation sequence at most one tracked object carries
`is_primary_target = true` (the flag is rewritten only by
`_select_new_target` and `_update_target_flags`, which set it exactly on
the current target id — unique because ids are — and new tracks start
with it `false`). -/
theorem C7_at_most_one_primary (sq : ℚ → ℚ) (cfg : MultiObjectConfig)
    (ops : List (ℚ × Op)) :
    (runOps sq cfg initState ops).1.tracked_objects.countP
      (·.is_primary_target) ≤ 1 :=
  (runOps_preserves sq cfg primaryInv
    (fun s now op h => applyOp_primaryInv sq cfg s now op h) ops initState
    ⟨fun i hi => absurd hi (List.not_mem_nil i), List.nodup_nil,
      Nat.zero_le 1⟩).2.2
